import Mathlib

/-!
Shallow embedding of the unified WebSocket consumer of the realtime chat
application (api/apps/chat/consumers.py, with the durable model from
api/apps/chat/models.py and the SFU service from api/apps/chat/sfu.py).

The per-connection state of UnifiedConsumer is the structure Conn; the
shared stores (the relational database and the Redis instance) are the
structure World.  Every handler is a pure function from a state to a state
paired with the list of externally visible effects it performs, in program
order: frames sent on the socket, channel-layer group sends and group
membership changes, and connection closes.  A ghost effect handlerCall
records each invocation of a namespace handler, exactly at the call sites
of the dispatch code.  Outbound HTTP to the SFU provider is abstracted by
two environment fields (whether the provider answers successfully, and the
session id it mints); token verification is abstracted by an environment
function from tokens to user identities, standing for JWT or session
validation.  Python truthiness of room ids (0 and missing are falsy) is
modelled explicitly.
-/

namespace RTChat

/-- A chat room row together with its participant set (ChatRoom joined
with ChatRoomParticipant). -/
structure Room where
  id : Nat
  participants : List Nat
deriving DecidableEq

/-- A Message row (id, chat_room_id, sender_id, content, attachment flag). -/
structure MsgRow where
  id : Nat
  roomId : Nat
  senderId : Nat
  content : String
  hasAttachment : Bool
deriving DecidableEq

/-- A Notification row (user_id, chat_room_id, content, is_read). -/
structure NotifRow where
  userId : Nat
  roomId : Nat
  content : String
  isRead : Bool
deriving DecidableEq

/-- The shared mutable stores: the relational database and the Redis keys
used by the consumer and the SFU service. -/
structure World where
  rooms : List Room
  users : List Nat
  messages : List MsgRow
  nextMessageId : Nat
  notifications : List NotifRow
  globalOnline : List Nat
  roomPresence : List (Nat × Nat)
  typing : List (Nat × Nat)
  notes : List (Nat × String)
  cursors : List (Nat × Nat × String)
  huddleRoster : List (Nat × Nat)
  sfuActive : List Nat
  sfuSessions : List (Nat × Nat × String)
  sfuTracks : List (Nat × String × Nat)
  sfuConfigured : Bool
deriving DecidableEq

/-- Per-connection state of UnifiedConsumer (fields set in init, auth and
the handlers). -/
structure Conn where
  isAuthenticated : Bool
  userId : Nat
  userName : String
  subscribedRooms : List Nat
  activeHuddleRoom : Option Nat
  closed : Bool
  closeCode : Option Nat
  lastActivity : Nat
  heartbeatTask : Bool
  presenceRefreshTask : Bool
deriving DecidableEq

/-- Full state seen by one connection: its own state plus the shared world. -/
structure S where
  conn : Conn
  world : World
deriving DecidableEq

/-- Channel-layer groups (user_{id}, chat_{room_id}, global_presence). -/
inductive Group
  | user (uid : Nat)
  | chat (roomId : Nat)
  | globalPresence
deriving DecidableEq

/-- Presence payload returned by mark_room_presence and embedded in the
chat.subscribed frame. -/
structure PresencePayload where
  count : Nat
  users : List Nat
  truncated : Bool
deriving DecidableEq

/-- Outgoing socket frames (the JSON frames built by self.send). -/
inductive Frame
  | authRequired
  | authErr (msg : String)
  | authSuccess (userId : Nat) (onlineUsers : List Nat)
  | errMsg (msg : String)
  | errCode (code msg : String)
  | pong (timestamp : Nat)
  | presenceAck
  | chatSubscribed (roomId : Nat) (presence : PresencePayload)
  | chatUnsubscribed (roomId : Nat)
  | collabStateF (roomId : Nat) (content : String)
  | cursorStateF (roomId : Nat) (cursors : List (Nat × String))
  | huddleParticipantsF (roomId : Nat) (participants : List Nat)
  | sfuUpgradeF (roomId : Nat)
  | sfuPublishAnswer (roomId : Nat) (sessionId trackName : String)
  | sfuSubscribeOffer (roomId : Nat) (sessionId : String)
  | sfuRenegotiateComplete (roomId : Nat)
  | globalOnlineUsersF (users : List Nat)
deriving DecidableEq

/-- Envelopes delivered through channel-layer group_send. -/
inductive GroupMsg
  | userOnline (userId : Nat)
  | userOffline (userId : Nat)
  | chatMessage (roomId : Nat) (message : MsgRow)
  | messageUpdated (roomId : Nat) (message : MsgRow)
  | messageDeleted (roomId messageId : Nat)
  | typingStatus (roomId userId : Nat) (isTyping : Bool)
  | presenceUpdate (roomId : Nat) (action : String) (userId : Nat)
  | collabUpdate (roomId : Nat) (content : String) (userId : Nat)
  | cursorUpdate (roomId : Nat) (cursor : String) (userId : Nat)
  | huddleParticipants (roomId : Nat) (participants : List Nat)
  | huddleSignal (fromUser : Nat) (payload : String) (roomId : Option Nat)
  | sfuUpgrade (roomId : Nat)
  | sfuTrackAdded (roomId userId : Nat) (userName trackName : String)
  | newMessageNotification (chatRoomId senderId : Nat) (senderName : String)
      (messageContent : Option String) (hasAttachment : Bool)
deriving DecidableEq

/-- Externally visible actions of a handler, in program order.  handlerCall
is a ghost marker recording that a namespace handler function was invoked. -/
inductive Effect
  | sendSelf (f : Frame)
  | groupSend (g : Group) (msg : GroupMsg)
  | groupAdd (g : Group)
  | groupDiscard (g : Group)
  | closeConn (code : Nat)
  | handlerCall (ns : String)
deriving DecidableEq

/-- A decoded incoming JSON object: the fields the handlers read via
data.get.  messageId is some n exactly when the payload holds an int, and
targetId likewise. -/
structure EvtData where
  ty : String
  roomId : Option Nat := none
  token : Option String := none
  content : Option String := none
  messageId : Option Nat := none
  isTyping : Bool := false
  cursor : Option String := none
  targetId : Option Nat := none
  payload : Option String := none
  trackName : Option String := none
  sdpOffer : Option String := none
  sdpAnswer : Option String := none
deriving DecidableEq

/-- An incoming websocket text frame: either malformed JSON or a decoded
event object. -/
inductive InFrame
  | badJson
  | evt (e : EvtData)
deriving DecidableEq

/-- External environment: token verification and the SFU provider HTTP
interface, abstracted. -/
structure Env where
  tokenUser : String → Option (Nat × String)
  sfuProviderOk : Bool
  freshSessionId : String

/-- SFU_PARTICIPANT_THRESHOLD. -/
def sfuParticipantThreshold : Nat := 3

/-- Redis SADD on a set modelled as a duplicate-free list. -/
def saddList (l : List Nat) (x : Nat) : List Nat :=
  if x ∈ l then l else l ++ [x]

/-- Redis SREM. -/
def sremList (l : List Nat) (x : Nat) : List Nat :=
  l.filter (fun y => y ≠ x)

/-- Redis HSET keyed by a pair: keeps the entry in place if the key is
already present (only its value payload would change), appends otherwise. -/
def hsetPair (l : List (Nat × Nat)) (k : Nat × Nat) : List (Nat × Nat) :=
  if k ∈ l then l else l ++ [k]

/-- ChatRoom.objects.get(id=room_id), as used by _get_chat_room. -/
def getRoom (w : World) (roomId : Nat) : Option Room :=
  w.rooms.find? (fun r => r.id == roomId)

/-- _is_room_participant: ChatRoom.objects.filter(id=room_id,
participants__id=user_id).exists(). -/
def isRoomParticipant (w : World) (roomId uid : Nat) : Bool :=
  w.rooms.any (fun r => r.id == roomId && r.participants.contains uid)

/-- _mark_room_presence: HSET chat:presence:{room} plus the payload built
from HVALS (count, users truncated at 50, truncated flag). -/
def markRoomPresence (w : World) (roomId uid : Nat) : World × PresencePayload :=
  let pres := hsetPair w.roomPresence (roomId, uid)
  let users := (pres.filter (fun p => p.1 == roomId)).map (fun p => p.2)
  let n := users.length
  ({ w with roomPresence := pres },
   if n > 50 then { count := n, users := users.take 50, truncated := true }
   else { count := n, users := users, truncated := false })

/-- _remove_room_presence: HDEL, reporting whether an entry was present. -/
def removeRoomPresence (w : World) (roomId uid : Nat) : World × Bool :=
  if (roomId, uid) ∈ w.roomPresence then
    ({ w with roomPresence := w.roomPresence.filter (fun p => p ≠ (roomId, uid)) }, true)
  else (w, false)

/-- _refresh_room_presence: HSET again (membership view). -/
def refreshRoomPresence (w : World) (roomId uid : Nat) : World :=
  { w with roomPresence := hsetPair w.roomPresence (roomId, uid) }

/-- _clear_typing_state. -/
def clearTypingState (w : World) (roomId uid : Nat) : World :=
  { w with typing := w.typing.filter (fun p => p ≠ (roomId, uid)) }

/-- _set_typing_state. -/
def setTypingState (w : World) (roomId uid : Nat) (isTyping : Bool) : World :=
  if isTyping then { w with typing := hsetPair w.typing (roomId, uid) }
  else clearTypingState w roomId uid

/-- _get_note_state. -/
def getNoteState (w : World) (roomId : Nat) : Option String :=
  (w.notes.find? (fun p => p.1 == roomId)).map (fun p => p.2)

/-- _set_note_state. -/
def setNoteState (w : World) (roomId : Nat) (content : String) : World :=
  { w with notes := (w.notes.filter (fun p => p.1 ≠ roomId)) ++ [(roomId, content)] }

/-- _get_cursor_state. -/
def getCursorState (w : World) (roomId : Nat) : List (Nat × String) :=
  (w.cursors.filter (fun c => c.1 == roomId)).map (fun c => (c.2.1, c.2.2))

/-- _set_cursor_state. -/
def setCursorState (w : World) (roomId uid : Nat) (cursor : String) : World :=
  { w with cursors :=
      (w.cursors.filter (fun c => ¬(c.1 == roomId ∧ c.2.1 == uid))) ++ [(roomId, uid, cursor)] }

/-- Huddle roster of a room: the values of the chat:huddle:{room} hash. -/
def huddleRosterOf (w : World) (roomId : Nat) : List Nat :=
  (w.huddleRoster.filter (fun p => p.1 == roomId)).map (fun p => p.2)

/-- sfu_service.is_sfu_active. -/
def isSfuActive (w : World) (roomId : Nat) : Bool :=
  w.sfuActive.contains roomId

/-- sfu_service.set_sfu_active. -/
def setSfuActive (w : World) (roomId : Nat) : World :=
  { w with sfuActive := saddList w.sfuActive roomId }

/-- sfu_service.get_user_session. -/
def getUserSession (w : World) (roomId uid : Nat) : Option String :=
  (w.sfuSessions.find? (fun s => s.1 == roomId && s.2.1 == uid)).map (fun s => s.2.2)

/-- sfu_service.remove_user_session: drop the session registry entry of the
user and every track the user owns in the room. -/
def removeUserSession (w : World) (roomId uid : Nat) : World :=
  { w with
    sfuSessions := w.sfuSessions.filter (fun s => ¬(s.1 == roomId ∧ s.2.1 == uid)),
    sfuTracks := w.sfuTracks.filter (fun t => ¬(t.1 == roomId ∧ t.2.2 == uid)) }

/-- sfu_service.cleanup_room: delete the sfu_sessions, sfu_tracks and
sfu_active keys of the room. -/
def cleanupRoomSfu (w : World) (roomId : Nat) : World :=
  { w with
    sfuSessions := w.sfuSessions.filter (fun s => s.1 ≠ roomId),
    sfuTracks := w.sfuTracks.filter (fun t => t.1 ≠ roomId),
    sfuActive := w.sfuActive.filter (fun r => r ≠ roomId) }

/-- _add_huddle_participant: HSET the roster hash and return its values. -/
def addHuddleParticipant (w : World) (roomId uid : Nat) : World × List Nat :=
  let w2 := { w with huddleRoster := hsetPair w.huddleRoster (roomId, uid) }
  (w2, huddleRosterOf w2 roomId)

/-- _remove_huddle_participant: none when the user is not in the roster
hash; otherwise HDEL, remove the SFU session of the user, and return the
remaining roster values. -/
def removeHuddleParticipant (w : World) (roomId uid : Nat) : World × Option (List Nat) :=
  if (roomId, uid) ∈ w.huddleRoster then
    let w1 := { w with huddleRoster := w.huddleRoster.filter (fun p => p ≠ (roomId, uid)) }
    let w2 := removeUserSession w1 roomId uid
    (w2, some (huddleRosterOf w2 roomId))
  else (w, none)

/-- _create_message: insert a Message row with a fresh id; websocket sends
carry no attachment. -/
def createMessage (w : World) (roomId uid : Nat) (content : String) : World × MsgRow :=
  let m : MsgRow :=
    { id := w.nextMessageId, roomId := roomId, senderId := uid,
      content := content, hasAttachment := false }
  ({ w with messages := w.messages ++ [m], nextMessageId := w.nextMessageId + 1 }, m)

/-- _update_message: Message.objects.get(id, chat_room_id, sender_id=caller);
none on DoesNotExist, otherwise the row content is replaced. -/
def updateMessage (w : World) (uid roomId messageId : Nat) (content : String) :
    World × Option MsgRow :=
  match w.messages.find? (fun m => m.id == messageId && m.roomId == roomId && m.senderId == uid) with
  | none => (w, none)
  | some m =>
    let m2 := { m with content := content }
    ({ w with messages := w.messages.map (fun x =>
        if x.id == messageId && x.roomId == roomId && x.senderId == uid then m2 else x) },
     some m2)

/-- _delete_message: same sender-scoped lookup; the row is removed. -/
def deleteMessage (w : World) (uid roomId messageId : Nat) : World × Option Nat :=
  if w.messages.any (fun m => m.id == messageId && m.roomId == roomId && m.senderId == uid) then
    ({ w with messages := w.messages.filter (fun m =>
        ¬(m.id == messageId ∧ m.roomId == roomId ∧ m.senderId == uid)) },
     some messageId)
  else (w, none)

/-- A notification row matching the coalescing key (user_id, chat_room_id,
is_read=False). -/
def unreadMatches (n : NotifRow) (uid roomId : Nat) : Bool :=
  n.userId == uid && n.roomId == roomId && !n.isRead

/-- Replace the content of the first unread row of the pair (the row
Notification.objects.update_or_create finds). -/
def updateFirstUnread : List NotifRow → Nat → Nat → String → List NotifRow
  | [], _, _, _ => []
  | n :: rest, uid, roomId, content =>
    if unreadMatches n uid roomId then { n with content := content } :: rest
    else n :: updateFirstUnread rest uid roomId content

/-- Notification.objects.update_or_create(user, chat_room_id, is_read=False,
defaults={content}): update the unread row of the pair if one exists, else
insert a fresh unread row. -/
def updateOrCreateNotification (db : List NotifRow) (uid roomId : Nat) (content : String) :
    List NotifRow :=
  if db.any (fun n => unreadMatches n uid roomId) then
    updateFirstUnread db uid roomId content
  else db ++ [{ userId := uid, roomId := roomId, content := content, isRead := false }]

/-- _create_notification: a no-op when the user row does not exist
(User.DoesNotExist is swallowed), otherwise the coalescing upsert. -/
def createNotification (w : World) (uid roomId : Nat) (content : String) : World :=
  if w.users.contains uid then
    { w with notifications := updateOrCreateNotification w.notifications uid roomId content }
  else w

/-- msg_content[:100] if msg_content else None: the preview attached to an
ephemeral new-message notification. -/
def messagePreview (content : String) : Option String :=
  if content = "" then none else some ⟨content.data.take 100⟩

/-- One iteration of the _notify_participants loop for participant p. -/
def notifyOne (w : World) (roomId senderId : Nat) (senderName content : String)
    (hasAtt : Bool) (p : Nat) : World × List Effect :=
  if (roomId, p) ∈ w.roomPresence then (w, [])
  else if w.globalOnline.contains p then
    (w, [Effect.groupSend (Group.user p)
          (GroupMsg.newMessageNotification roomId senderId senderName
            (messagePreview content) hasAtt)])
  else
    (createNotification w p roomId ("New message from " ++ senderName), [])

/-- The _notify_participants loop over the computed participant ids. -/
def notifyLoop (roomId senderId : Nat) (senderName content : String) (hasAtt : Bool) :
    World → List Nat → World × List Effect
  | w, [] => (w, [])
  | w, p :: ps =>
    let r := notifyOne w roomId senderId senderName content hasAtt p
    let rest := notifyLoop roomId senderId senderName content hasAtt r.1 ps
    (rest.1, r.2 ++ rest.2)

/-- _get_participant_ids: participants of the room excluding the caller. -/
def participantIdsExcluding (room : Room) (uid : Nat) : List Nat :=
  room.participants.filter (fun p => p ≠ uid)

/-- _notify_participants. -/
def notifyParticipants (w : World) (roomId : Nat) (room : Room) (senderId : Nat)
    (senderName content : String) (hasAtt : Bool) : World × List Effect :=
  notifyLoop roomId senderId senderName content hasAtt w
    (participantIdsExcluding room senderId)

/-- Python truthiness of self.active_huddle_room (None and 0 are falsy). -/
def activeTruthy (c : Conn) : Bool :=
  match c.activeHuddleRoom with
  | some a => a ≠ 0
  | none => false

/-- The guard `if room_id:` around a room-scoped handler call. -/
def withRoomId (st : S) (rid? : Option Nat) (f : Nat → S × List Effect) :
    S × List Effect :=
  match rid? with
  | some rid => if rid ≠ 0 then f rid else (st, [])
  | none => (st, [])

/-- The guard `if room_id and room_id in self.subscribed_rooms:`. -/
def withSubscribedRoom (st : S) (rid? : Option Nat) (f : Nat → S × List Effect) :
    S × List Effect :=
  match rid? with
  | some rid =>
    if rid ≠ 0 ∧ st.conn.subscribedRooms.contains rid then f rid else (st, [])
  | none => (st, [])

/-- _subscribe_to_room. -/
def subscribeToRoom (st : S) (roomId : Nat) : S × List Effect :=
  if st.conn.subscribedRooms.contains roomId then (st, [])
  else if ¬ isRoomParticipant st.world roomId st.conn.userId then
    (st, [Effect.sendSelf (Frame.errCode "NOT_PARTICIPANT" "Not a participant of this room")])
  else
    match getRoom st.world roomId with
    | none =>
      (st, [Effect.sendSelf (Frame.errCode "ROOM_NOT_FOUND" "Chat room not found")])
    | some _ =>
      let conn := { st.conn with subscribedRooms := st.conn.subscribedRooms ++ [roomId] }
      let mp := markRoomPresence st.world roomId st.conn.userId
      let w := mp.1
      let e1 := [Effect.groupAdd (Group.chat roomId),
                 Effect.sendSelf (Frame.chatSubscribed roomId mp.2)]
      let e2 :=
        match getNoteState w roomId with
        | some c => [Effect.sendSelf (Frame.collabStateF roomId c)]
        | none => []
      let cs := getCursorState w roomId
      let e3 := if cs.isEmpty then [] else [Effect.sendSelf (Frame.cursorStateF roomId cs)]
      let hp := huddleRosterOf w roomId
      let e4 := if hp.isEmpty then [] else [Effect.sendSelf (Frame.huddleParticipantsF roomId hp)]
      let e5 := [Effect.groupSend (Group.chat roomId)
                  (GroupMsg.presenceUpdate roomId "join" st.conn.userId)]
      ({ conn := conn, world := w }, e1 ++ e2 ++ e3 ++ e4 ++ e5)

/-- _leave_chat_room: remove presence, clear typing, leave the group, and
broadcast a leave only when a presence entry was actually removed. -/
def leaveChatRoom (st : S) (roomId : Nat) : S × List Effect :=
  let rp := removeRoomPresence st.world roomId st.conn.userId
  let w2 := clearTypingState rp.1 roomId st.conn.userId
  let conn := { st.conn with
    subscribedRooms := st.conn.subscribedRooms.filter (fun r => r ≠ roomId) }
  let e2 :=
    if rp.2 then
      [Effect.groupSend (Group.chat roomId)
        (GroupMsg.presenceUpdate roomId "leave" st.conn.userId)]
    else []
  ({ conn := conn, world := w2 }, Effect.groupDiscard (Group.chat roomId) :: e2)

/-- _unsubscribe_from_room. -/
def unsubscribeFromRoom (st : S) (roomId : Nat) : S × List Effect :=
  if ¬ st.conn.subscribedRooms.contains roomId then (st, [])
  else
    let r := leaveChatRoom st roomId
    (r.1, r.2 ++ [Effect.sendSelf (Frame.chatUnsubscribed roomId)])

/-- _handle_send_message: drop empty or whitespace content, require the
room to exist, persist, broadcast, then run the participant fan-out. -/
def handleSendMessage (st : S) (roomId : Nat) (content : Option String) :
    S × List Effect :=
  match content with
  | none => (st, [])
  | some c =>
    if c.trim = "" then (st, [])
    else
      match getRoom st.world roomId with
      | none => (st, [])
      | some room =>
        let cm := createMessage st.world roomId st.conn.userId c.trim
        let np := notifyParticipants cm.1 roomId room st.conn.userId st.conn.userName
                    cm.2.content cm.2.hasAttachment
        ({ st with world := np.1 },
         Effect.groupSend (Group.chat roomId) (GroupMsg.chatMessage roomId cm.2) :: np.2)

/-- _handle_edit_message: require an int message_id and non-blank content,
then the sender-scoped update; broadcast only when a row was updated. -/
def handleEditMessage (st : S) (roomId : Nat) (messageId : Option Nat)
    (content : Option String) : S × List Effect :=
  match messageId, content with
  | some mid, some c =>
    if c.trim = "" then (st, [])
    else
      let um := updateMessage st.world st.conn.userId roomId mid c.trim
      match um.2 with
      | some m =>
        ({ st with world := um.1 },
         [Effect.groupSend (Group.chat roomId) (GroupMsg.messageUpdated roomId m)])
      | none => ({ st with world := um.1 }, [])
  | _, _ => (st, [])

/-- _handle_delete_message. -/
def handleDeleteMessage (st : S) (roomId : Nat) (messageId : Option Nat) :
    S × List Effect :=
  match messageId with
  | some mid =>
    let dm := deleteMessage st.world st.conn.userId roomId mid
    match dm.2 with
    | some delId =>
      ({ st with world := dm.1 },
       [Effect.groupSend (Group.chat roomId) (GroupMsg.messageDeleted roomId delId)])
    | none => ({ st with world := dm.1 }, [])
  | none => (st, [])

/-- _handle_typing. -/
def handleTyping (st : S) (roomId : Nat) (isTyping : Bool) : S × List Effect :=
  ({ st with world := setTypingState st.world roomId st.conn.userId isTyping },
   [Effect.groupSend (Group.chat roomId)
     (GroupMsg.typingStatus roomId st.conn.userId isTyping)])

/-- _handle_collab_update: no-op when the content is unchanged. -/
def handleCollabUpdate (st : S) (roomId : Nat) (content : Option String) :
    S × List Effect :=
  match content with
  | none => (st, [])
  | some c =>
    if getNoteState st.world roomId = some c then (st, [])
    else
      ({ st with world := setNoteState st.world roomId c },
       [Effect.groupSend (Group.chat roomId)
         (GroupMsg.collabUpdate roomId c st.conn.userId)])

/-- _handle_cursor_update. -/
def handleCursorUpdate (st : S) (roomId : Nat) (cursor : Option String) :
    S × List Effect :=
  match cursor with
  | none => (st, [])
  | some cur =>
    ({ st with world := setCursorState st.world roomId st.conn.userId cur },
     [Effect.groupSend (Group.chat roomId)
       (GroupMsg.cursorUpdate roomId cur st.conn.userId)])

/-- _handle_chat_event: dispatch on the chat.* event type; the ghost
handlerCall marker records that this handler ran. -/
def handleChatEvent (st : S) (e : EvtData) : S × List Effect :=
  let r :=
    if e.ty == "chat.subscribe" then
      withRoomId st e.roomId (fun rid => subscribeToRoom st rid)
    else if e.ty == "chat.unsubscribe" then
      withRoomId st e.roomId (fun rid => unsubscribeFromRoom st rid)
    else if e.ty == "chat.send_message" then
      withSubscribedRoom st e.roomId (fun rid => handleSendMessage st rid e.content)
    else if e.ty == "chat.edit_message" then
      withSubscribedRoom st e.roomId (fun rid => handleEditMessage st rid e.messageId e.content)
    else if e.ty == "chat.delete_message" then
      withSubscribedRoom st e.roomId (fun rid => handleDeleteMessage st rid e.messageId)
    else if e.ty == "chat.typing" then
      withSubscribedRoom st e.roomId (fun rid => handleTyping st rid e.isTyping)
    else if e.ty == "chat.collab_update" then
      withSubscribedRoom st e.roomId (fun rid => handleCollabUpdate st rid e.content)
    else if e.ty == "chat.cursor_update" then
      withSubscribedRoom st e.roomId (fun rid => handleCursorUpdate st rid e.cursor)
    else (st, [])
  (r.1, Effect.handlerCall "chat" :: r.2)

/-- _trigger_sfu_upgrade: a no-op when the SFU is not configured, otherwise
mark sfu_active and broadcast the upgrade to the room group. -/
def triggerSfuUpgrade (st : S) (roomId : Nat) : S × List Effect :=
  if ¬ st.world.sfuConfigured then (st, [])
  else
    ({ st with world := setSfuActive st.world roomId },
     [Effect.groupSend (Group.chat roomId) (GroupMsg.sfuUpgrade roomId)])

/-- _leave_huddle. -/
def leaveHuddle (st : S) (roomId : Nat) : S × List Effect :=
  let rh := removeHuddleParticipant st.world roomId st.conn.userId
  let conn := { st.conn with activeHuddleRoom := none }
  let w2 := removeUserSession rh.1 roomId st.conn.userId
  let w3 :=
    match rh.2 with
    | none => cleanupRoomSfu w2 roomId
    | some ps => if ps.isEmpty then cleanupRoomSfu w2 roomId else w2
  ({ conn := conn, world := w3 },
   [Effect.groupSend (Group.chat roomId)
     (GroupMsg.huddleParticipants roomId (rh.2.getD []))])

/-- The part of _join_huddle after the leave of a previous huddle: verify
room participation, update the roster, broadcast it, then apply the SFU
policy: a direct sfu_upgrade frame when SFU is already active, a one-time
group upgrade broadcast when the roster reaches the threshold. -/
def joinHuddleCore (st : S) (roomId : Nat) : S × List Effect :=
  if ¬ isRoomParticipant st.world roomId st.conn.userId then
    (st, [Effect.sendSelf (Frame.errCode "NOT_PARTICIPANT" "Not a participant of this room")])
  else
    let conn := { st.conn with activeHuddleRoom := some roomId }
    let ap := addHuddleParticipant st.world roomId st.conn.userId
    let active := isSfuActive ap.1 roomId
    let e1 := [Effect.groupSend (Group.chat roomId)
                (GroupMsg.huddleParticipants roomId ap.2)]
    if active then
      ({ conn := conn, world := ap.1 },
       e1 ++ [Effect.sendSelf (Frame.sfuUpgradeF roomId)])
    else if sfuParticipantThreshold ≤ ap.2.length then
      let tr := triggerSfuUpgrade { conn := conn, world := ap.1 } roomId
      (tr.1, e1 ++ tr.2)
    else
      ({ conn := conn, world := ap.1 }, e1)

/-- _join_huddle: a connection can only be in one huddle at a time, so an
active huddle in another room is left first, then the join proper runs. -/
def joinHuddle (st : S) (roomId : Nat) : S × List Effect :=
  let pre :=
    match st.conn.activeHuddleRoom with
    | some a => if a ≠ 0 ∧ a ≠ roomId then leaveHuddle st a else (st, [])
    | none => (st, [])
  let r := joinHuddleCore pre.1 roomId
  (r.1, pre.2 ++ r.2)

/-- _handle_huddle_signal: forward to the target user group, silently
dropped when target_id is not an int or the payload is missing. -/
def handleHuddleSignal (st : S) (e : EvtData) : S × List Effect :=
  match e.targetId, e.payload with
  | some t, some p =>
    (st, [Effect.groupSend (Group.user t)
      (GroupMsg.huddleSignal st.conn.userId p st.conn.activeHuddleRoom)])
  | _, _ => (st, [])

/-- sfu_service.create_session_for_user, with the provider HTTP call
abstracted by the environment: reuse an existing session, otherwise mint a
fresh one (registering it and marking sfu_active) when the provider
answers. -/
def createUserSfuSession (env : Env) (w : World) (roomId uid : Nat) :
    World × Option String :=
  if ¬ w.sfuConfigured then (w, none)
  else
    match getUserSession w roomId uid with
    | some sid => (w, some sid)
    | none =>
      if env.sfuProviderOk then
        let w1 := { w with sfuSessions := w.sfuSessions ++ [(roomId, uid, env.freshSessionId)] }
        (setSfuActive w1 roomId, some env.freshSessionId)
      else (w, none)

/-- _handle_sfu_publish (provider calls abstracted by the environment). -/
def handleSfuPublish (env : Env) (st : S) (e : EvtData) : S × List Effect :=
  match st.conn.activeHuddleRoom with
  | none => (st, [])
  | some roomId =>
    if roomId = 0 then (st, [])
    else
      match e.trackName, e.sdpOffer with
      | some tn, some offer =>
        if tn = "" ∨ offer = "" then
          (st, [Effect.sendSelf (Frame.errCode "INVALID_SFU_PUBLISH" "Missing track_name or sdp_offer")])
        else
          let cs := createUserSfuSession env st.world roomId st.conn.userId
          match cs.2 with
          | none =>
            ({ st with world := cs.1 },
             [Effect.sendSelf (Frame.errCode "SFU_SESSION_FAILED" "Failed to create SFU session")])
          | some sid =>
            if st.world.sfuConfigured ∧ env.sfuProviderOk then
              let w2 := { cs.1 with sfuTracks := cs.1.sfuTracks ++ [(roomId, tn, st.conn.userId)] }
              ({ st with world := w2 },
               [Effect.sendSelf (Frame.sfuPublishAnswer roomId sid tn),
                Effect.groupSend (Group.chat roomId)
                  (GroupMsg.sfuTrackAdded roomId st.conn.userId st.conn.userName tn)])
            else
              ({ st with world := cs.1 },
               [Effect.sendSelf (Frame.errCode "SFU_PUBLISH_FAILED" "Failed to publish track to SFU")])
      | _, _ =>
        (st, [Effect.sendSelf (Frame.errCode "INVALID_SFU_PUBLISH" "Missing track_name or sdp_offer")])

/-- _handle_sfu_subscribe (provider calls abstracted by the environment):
fails when there is no session, no remote track, or the provider errors. -/
def handleSfuSubscribe (env : Env) (st : S) : S × List Effect :=
  match st.conn.activeHuddleRoom with
  | none => (st, [])
  | some roomId =>
    if roomId = 0 then (st, [])
    else
      let cs := createUserSfuSession env st.world roomId st.conn.userId
      match cs.2 with
      | none =>
        ({ st with world := cs.1 },
         [Effect.sendSelf (Frame.errCode "SFU_SESSION_FAILED" "Failed to create SFU session for subscription")])
      | some sid =>
        let remote := cs.1.sfuTracks.filter
          (fun t => t.1 == roomId && t.2.2 ≠ st.conn.userId)
        if remote.isEmpty ∨ ¬ env.sfuProviderOk then
          ({ st with world := cs.1 },
           [Effect.sendSelf (Frame.errCode "SFU_SUBSCRIBE_FAILED" "Failed to subscribe to SFU tracks (or no remote tracks available)")])
        else
          ({ st with world := cs.1 },
           [Effect.sendSelf (Frame.sfuSubscribeOffer roomId sid)])

/-- _handle_sfu_renegotiate (provider call abstracted by the environment). -/
def handleSfuRenegotiate (env : Env) (st : S) (e : EvtData) : S × List Effect :=
  match st.conn.activeHuddleRoom with
  | none => (st, [])
  | some roomId =>
    if roomId = 0 then (st, [])
    else
      match e.sdpAnswer with
      | none =>
        (st, [Effect.sendSelf (Frame.errCode "INVALID_SFU_RENEGOTIATE" "Missing sdp_answer")])
      | some _ =>
        match getUserSession st.world roomId st.conn.userId with
        | none =>
          (st, [Effect.sendSelf (Frame.errCode "NO_SFU_SESSION" "No SFU session found for renegotiation")])
        | some _ =>
          if env.sfuProviderOk then
            (st, [Effect.sendSelf (Frame.sfuRenegotiateComplete roomId)])
          else
            (st, [Effect.sendSelf (Frame.errCode "SFU_RENEGOTIATE_FAILED" "Failed to complete SFU renegotiation")])

/-- _handle_huddle_event. -/
def handleHuddleEvent (env : Env) (st : S) (e : EvtData) : S × List Effect :=
  let r :=
    if e.ty == "huddle.join" then
      withRoomId st e.roomId (fun rid => joinHuddle st rid)
    else if e.ty == "huddle.leave" then
      (if activeTruthy st.conn then
        match st.conn.activeHuddleRoom with
        | some a => leaveHuddle st a
        | none => (st, [])
      else (st, []))
    else if e.ty == "huddle.signal" then
      (if activeTruthy st.conn then handleHuddleSignal st e else (st, []))
    else if e.ty == "huddle.sfu_publish" then
      (if activeTruthy st.conn then handleSfuPublish env st e else (st, []))
    else if e.ty == "huddle.sfu_subscribe" then
      (if activeTruthy st.conn then handleSfuSubscribe env st else (st, []))
    else if e.ty == "huddle.sfu_renegotiate" then
      (if activeTruthy st.conn then handleSfuRenegotiate env st e else (st, []))
    else (st, [])
  (r.1, Effect.handlerCall "huddle" :: r.2)

/-- _handle_global_event: global.refresh returns the online-users snapshot. -/
def handleGlobalEvent (st : S) (e : EvtData) : S × List Effect :=
  let r :=
    if e.ty == "global.refresh" then
      (st, [Effect.sendSelf (Frame.globalOnlineUsersF st.world.globalOnline)])
    else (st, [])
  (r.1, Effect.handlerCall "global" :: r.2)

/-- The legacy event rewrite table of _handle_legacy_event. -/
def legacyTarget (ty : String) : Option String :=
  if ty == "send_message" then some "chat.send_message"
  else if ty == "edit_message" then some "chat.edit_message"
  else if ty == "delete_message" then some "chat.delete_message"
  else if ty == "typing" then some "chat.typing"
  else if ty == "collab_update" then some "chat.collab_update"
  else if ty == "cursor_update" then some "chat.cursor_update"
  else if ty == "huddle_join" then some "huddle.join"
  else if ty == "huddle_leave" then some "huddle.leave"
  else if ty == "huddle_signal" then some "huddle.signal"
  else none

/-- The namespace of an event type: the part before the first dot, or the
whole type when it has no dot. -/
def namespaceOf (ty : String) : String :=
  if ty.contains '.' then (ty.splitOn ".").headD "" else ty

/-- _handle_legacy_event: rewrite the type and re-dispatch. -/
def handleLegacyEvent (env : Env) (st : S) (e : EvtData) : S × List Effect :=
  match legacyTarget e.ty with
  | none => (st, [])
  | some newTy =>
    let e2 := { e with ty := newTy }
    let ns := namespaceOf newTy
    if ns == "chat" then handleChatEvent st e2
    else if ns == "huddle" then handleHuddleEvent env st e2
    else (st, [])

/-- _handle_auth: missing token keeps the connection open with auth.error;
an invalid token answers auth.error and closes 4001; a valid token sets the
authenticated state, joins the user and global groups, registers global
presence, starts the background tasks, answers auth.success and broadcasts
the online status. -/
def handleAuth (env : Env) (st : S) (e : EvtData) : S × List Effect :=
  match e.token with
  | none => (st, [Effect.sendSelf (Frame.authErr "Token required")])
  | some t =>
    match env.tokenUser t with
    | none =>
      ({ st with conn := { st.conn with closed := true, closeCode := some 4001 } },
       [Effect.sendSelf (Frame.authErr "Invalid or expired token"), Effect.closeConn 4001])
    | some u =>
      let conn := { st.conn with
        isAuthenticated := true, userId := u.1, userName := u.2,
        heartbeatTask := true, presenceRefreshTask := true }
      let online := saddList st.world.globalOnline u.1
      ({ conn := conn, world := { st.world with globalOnline := online } },
       [Effect.groupAdd (Group.user u.1), Effect.groupAdd Group.globalPresence,
        Effect.sendSelf (Frame.authSuccess u.1 online),
        Effect.groupSend Group.globalPresence (GroupMsg.userOnline u.1)])

/-- _handle_presence_heartbeat: refresh the global presence and every
subscribed room, then ACK. -/
def handlePresenceHeartbeat (st : S) : S × List Effect :=
  let w1 := { st.world with globalOnline := saddList st.world.globalOnline st.conn.userId }
  let w2 := st.conn.subscribedRooms.foldl
    (fun w rid => refreshRoomPresence w rid st.conn.userId) w1
  ({ st with world := w2 }, [Effect.sendSelf Frame.presenceAck])

/-- UnifiedConsumer.receive: malformed JSON answers an error frame; every
decoded frame stamps last_activity; auth is handled first; everything else
requires authentication (otherwise one AUTH_REQUIRED error); then ping,
presence.heartbeat, and the namespace dispatch with the legacy fallback. -/
def receive (env : Env) (now : Nat) (st : S) (f : InFrame) : S × List Effect :=
  match f with
  | InFrame.badJson => (st, [Effect.sendSelf (Frame.errMsg "Invalid JSON")])
  | InFrame.evt e =>
    let st := { st with conn := { st.conn with lastActivity := now } }
    if e.ty == "auth" then handleAuth env st e
    else if ¬ st.conn.isAuthenticated then
      (st, [Effect.sendSelf (Frame.errCode "AUTH_REQUIRED" "Authentication required")])
    else if e.ty == "ping" then (st, [Effect.sendSelf (Frame.pong now)])
    else if e.ty == "presence.heartbeat" then handlePresenceHeartbeat st
    else
      let ns := namespaceOf e.ty
      if ns == "global" then handleGlobalEvent st e
      else if ns == "chat" then handleChatEvent st e
      else if ns == "huddle" then handleHuddleEvent env st e
      else handleLegacyEvent env st e

/-- UnifiedConsumer.connect: accept and request authentication. -/
def connectEffects : List Effect :=
  [Effect.sendSelf Frame.authRequired]

/-- The channel runtime delivering a sequence of frames to receive; no
frame is delivered once the connection is closed. -/
def runFrames (env : Env) (now : Nat) (st : S) : List InFrame → S × List Effect
  | [] => (st, [])
  | f :: fs =>
    if st.conn.closed then (st, [])
    else
      let r := receive env now st f
      let rest := runFrames env now r.1 fs
      (rest.1, r.2 ++ rest.2)

/-- One iteration of the room-leaving loop of disconnect. -/
def leaveStep (acc : S × List Effect) (rid : Nat) : S × List Effect :=
  let r := leaveChatRoom acc.1 rid
  (r.1, acc.2 ++ r.2)

/-- The huddle-leaving step of disconnect: leave the active huddle when the
field is truthy. -/
def huddleStep (s : S × List Effect) : S × List Effect :=
  if activeTruthy s.1.conn then
    match s.1.conn.activeHuddleRoom with
    | some a => leaveHuddle s.1 a
    | none => (s.1, [])
  else (s.1, [])

/-- The teardown body of disconnect for an authenticated connection: leave
every subscribed room, leave an active huddle, remove global presence,
leave the user and global groups, and broadcast the offline status. -/
def disconnectCore (s : S) : S × List Effect :=
  let lr := s.conn.subscribedRooms.foldl leaveStep (s, [])
  let lh := huddleStep lr
  let st3 : S := { lh.1 with world :=
    { lh.1.world with globalOnline := sremList lh.1.world.globalOnline lh.1.conn.userId } }
  (st3,
   lr.2 ++ lh.2 ++
     [Effect.groupDiscard (Group.user st3.conn.userId),
      Effect.groupDiscard Group.globalPresence,
      Effect.groupSend Group.globalPresence (GroupMsg.userOffline st3.conn.userId)])

/-- UnifiedConsumer.disconnect: cancel both background tasks, then, when
authenticated, run the teardown body. -/
def disconnect (st : S) : S × List Effect :=
  let st1 : S := { st with conn :=
    { st.conn with heartbeatTask := false, presenceRefreshTask := false } }
  if ¬ st1.conn.isAuthenticated then (st1, []) else disconnectCore st1

/-! Observation predicates over effect traces. -/

/-- The ghost markers of namespace-handler invocations in a trace. -/
def isHandlerCall : Effect → Bool
  | Effect.handlerCall _ => true
  | _ => false

/-- The handler invocations recorded in a trace. -/
def handlerCalls (effs : List Effect) : List Effect :=
  effs.filter isHandlerCall

/-- An error frame sent on the socket (with or without a code). -/
def isErrFrame : Effect → Bool
  | Effect.sendSelf (Frame.errCode _ _) => true
  | Effect.sendSelf (Frame.errMsg _) => true
  | _ => false

/-- A channel-layer group membership change. -/
def isMembershipChange : Effect → Bool
  | Effect.groupAdd _ => true
  | Effect.groupDiscard _ => true
  | _ => false

/-- An incoming frame that authenticates successfully: an auth event whose
token the verifier accepts. -/
def isSuccessfulAuth (env : Env) : InFrame → Bool
  | InFrame.badJson => false
  | InFrame.evt e =>
    e.ty == "auth" &&
      (match e.token with
       | none => false
       | some t => (env.tokenUser t).isSome)

/-- A well-formed incoming event whose type is not auth. -/
def isNonAuthEvent : InFrame → Bool
  | InFrame.badJson => false
  | InFrame.evt e => !(e.ty == "auth")

/-- An sfu_upgrade envelope broadcast to a group. -/
def isSfuUpgradeBroadcast : Effect → Bool
  | Effect.groupSend _ (GroupMsg.sfuUpgrade _) => true
  | _ => false

/-- An sfu_upgrade frame sent directly on the socket. -/
def isDirectSfuUpgrade : Effect → Bool
  | Effect.sendSelf (Frame.sfuUpgradeF _) => true
  | _ => false

/-- A broadcast_user_offline envelope. -/
def isUserOfflineBroadcast : Effect → Bool
  | Effect.groupSend _ (GroupMsg.userOffline _) => true
  | _ => false

/-- A leave presence_update envelope. -/
def isLeaveBroadcast : Effect → Bool
  | Effect.groupSend _ (GroupMsg.presenceUpdate _ a _) => a == "leave"
  | _ => false

/-- An effect addressed to the direct inbox group of user p. -/
def sentToUser (p : Nat) : Effect → Bool
  | Effect.groupSend (Group.user q) _ => q == p
  | _ => false

/-- The notification rows of one user. -/
def notifRowsFor (db : List NotifRow) (p : Nat) : List NotifRow :=
  db.filter (fun n => n.userId == p)

/-- The number of unread notification rows of a (user, room) pair. -/
def unreadCount (db : List NotifRow) (u r : Nat) : Nat :=
  db.countP (fun n => unreadMatches n u r)

/-! Concrete fixtures used by the witness and counterexample theorems. -/

/-- A world with one room 42 whose participants are users 7, 8 and 9. -/
def baseWorld : World :=
  { rooms := [{ id := 42, participants := [7, 8, 9] }], users := [7, 8, 9],
    messages := [{ id := 1, roomId := 42, senderId := 8, content := "hi", hasAttachment := false }],
    nextMessageId := 2, notifications := [], globalOnline := [7, 8],
    roomPresence := [(42, 7)], typing := [], notes := [], cursors := [],
    huddleRoster := [], sfuActive := [], sfuSessions := [], sfuTracks := [],
    sfuConfigured := true }

/-- An authenticated connection of user 7 subscribed to room 42. -/
def conn7 : Conn :=
  { isAuthenticated := true, userId := 7, userName := "alice",
    subscribedRooms := [42], activeHuddleRoom := none, closed := false,
    closeCode := none, lastActivity := 0, heartbeatTask := true,
    presenceRefreshTask := true }

/-- A fresh unauthenticated connection, as built by the constructor. -/
def connInit : Conn :=
  { isAuthenticated := false, userId := 0, userName := "",
    subscribedRooms := [], activeHuddleRoom := none, closed := false,
    closeCode := none, lastActivity := 0, heartbeatTask := false,
    presenceRefreshTask := false }

/-- An environment accepting the single token T as user 7. -/
def envT : Env :=
  { tokenUser := fun t => if t = "T" then some (7, "alice") else none,
    sfuProviderOk := true, freshSessionId := "sess1" }

/-- The state of connection conn7 over baseWorld. -/
def stC7 : S := { conn := conn7, world := baseWorld }

/-- A chat.edit_message event. -/
def editEvt (rid mid : Nat) (c : String) : EvtData :=
  { ty := "chat.edit_message", roomId := some rid, messageId := some mid, content := some c }

/-- A chat.delete_message event. -/
def deleteEvt (rid mid : Nat) : EvtData :=
  { ty := "chat.delete_message", roomId := some rid, messageId := some mid }

/-- A chat.subscribe event. -/
def subscribeEvt (rid : Nat) : EvtData :=
  { ty := "chat.subscribe", roomId := some rid }

/-- A ping event. -/
def pingEvt : EvtData := { ty := "ping" }

/-! Theorems. -/

/-- Dispatch shape of _handle_chat_event on a chat.edit_message event. -/
theorem handleChatEvent_edit (st : S) (e : EvtData) (h : e.ty = "chat.edit_message") :
    handleChatEvent st e =
      ((withSubscribedRoom st e.roomId
          fun rid => handleEditMessage st rid e.messageId e.content).1,
       Effect.handlerCall "chat" ::
         (withSubscribedRoom st e.roomId
           fun rid => handleEditMessage st rid e.messageId e.content).2) := by
  simp [handleChatEvent, h]

/-- Dispatch shape of _handle_chat_event on a chat.delete_message event. -/
theorem handleChatEvent_delete (st : S) (e : EvtData) (h : e.ty = "chat.delete_message") :
    handleChatEvent st e =
      ((withSubscribedRoom st e.roomId
          fun rid => handleDeleteMessage st rid e.messageId).1,
       Effect.handlerCall "chat" ::
         (withSubscribedRoom st e.roomId
           fun rid => handleDeleteMessage st rid e.messageId).2) := by
  simp [handleChatEvent, h]

/-- Dispatch shape of _handle_chat_event on a chat.subscribe event. -/
theorem handleChatEvent_subscribe (st : S) (e : EvtData) (h : e.ty = "chat.subscribe") :
    handleChatEvent st e =
      ((withRoomId st e.roomId fun rid => subscribeToRoom st rid).1,
       Effect.handlerCall "chat" ::
         (withRoomId st e.roomId fun rid => subscribeToRoom st rid).2) := by
  simp [handleChatEvent, h]

/-- The subscribed-room guard is the identity when the body is. -/
theorem withSubscribedRoom_some_const (st : S) (rid : Nat) (f : Nat → S × List Effect)
    (hf : f rid = (st, [])) : withSubscribedRoom st (some rid) f = (st, []) := by
  unfold withSubscribedRoom
  by_cases h : rid ≠ 0 ∧ st.conn.subscribedRooms.contains rid <;> simp [h, hf]

/-- _handle_edit_message is a silent no-op when no row matches the
sender-scoped lookup. -/
theorem handleEditMessage_no_sender_row (st : S) (rid mid : Nat) (c : String)
    (hfind : st.world.messages.find?
      (fun m => m.id == mid && m.roomId == rid && m.senderId == st.conn.userId) = none) :
    handleEditMessage st rid (some mid) (some c) = (st, []) := by
  by_cases h : c.trim = ""
  · simp [handleEditMessage, h]
  · simp [handleEditMessage, updateMessage, h, hfind]

/-- _handle_delete_message is a silent no-op when no row matches the
sender-scoped lookup. -/
theorem handleDeleteMessage_no_sender_row (st : S) (rid mid : Nat)
    (hany : st.world.messages.any
      (fun m => m.id == mid && m.roomId == rid && m.senderId == st.conn.userId) = false) :
    handleDeleteMessage st rid (some mid) = (st, []) := by
  simp [handleDeleteMessage, deleteMessage, hany]

/-- Claim C2: when every message row with the targeted id in the targeted
room has a sender different from the calling user, chat.edit_message and
chat.delete_message leave the whole state (in particular the durable
message rows) unchanged and emit nothing besides the ghost dispatch marker:
no message_updated or message_deleted broadcast and no frame at all. -/
theorem edit_delete_requires_sender (st : S) (rid mid : Nat) (c : String)
    (hsender : ∀ m ∈ st.world.messages, m.id = mid → m.roomId = rid →
        m.senderId ≠ st.conn.userId) :
    handleChatEvent st (editEvt rid mid c) = (st, [Effect.handlerCall "chat"]) ∧
    handleChatEvent st (deleteEvt rid mid) = (st, [Effect.handlerCall "chat"]) := by
  have hp : ∀ m ∈ st.world.messages,
      ¬((m.id == mid && m.roomId == rid && m.senderId == st.conn.userId) = true) := by
    intro m hm hcontra
    simp only [Bool.and_eq_true, beq_iff_eq] at hcontra
    exact hsender m hm hcontra.1.1 hcontra.1.2 hcontra.2
  have hfind : st.world.messages.find?
      (fun m => m.id == mid && m.roomId == rid && m.senderId == st.conn.userId) = none :=
    List.find?_eq_none.mpr hp
  have hany : st.world.messages.any
      (fun m => m.id == mid && m.roomId == rid && m.senderId == st.conn.userId) = false :=
    List.any_eq_false.mpr hp
  constructor
  · rw [handleChatEvent_edit _ _ rfl]
    simp only [editEvt]
    rw [withSubscribedRoom_some_const st rid _
      (handleEditMessage_no_sender_row st rid mid c hfind)]
  · rw [handleChatEvent_delete _ _ rfl]
    simp only [deleteEvt]
    rw [withSubscribedRoom_some_const st rid _
      (handleDeleteMessage_no_sender_row st rid mid hany)]

/-- Witness for C2 at a concrete state: message 1 of room 42 was sent by
user 8 and the caller is user 7. -/
theorem edit_delete_requires_sender_witness :
    (∀ m ∈ stC7.world.messages, m.id = 1 → m.roomId = 42 →
        m.senderId ≠ stC7.conn.userId) ∧
    handleChatEvent stC7 (editEvt 42 1 "x") = (stC7, [Effect.handlerCall "chat"]) ∧
    handleChatEvent stC7 (deleteEvt 42 1) = (stC7, [Effect.handlerCall "chat"]) :=
  ⟨by decide,
   (edit_delete_requires_sender stC7 42 1 "x" (by decide)).1,
   (edit_delete_requires_sender stC7 42 1 "x" (by decide)).2⟩

/-- An error frame carrying a given code. -/
def hasErrCode (code : String) : Effect → Bool
  | Effect.sendSelf (Frame.errCode c _) => c == code
  | _ => false

/-- The room-id guard passes any nonzero id through. -/
theorem withRoomId_some (st : S) (rid : Nat) (f : Nat → S × List Effect)
    (h : rid ≠ 0) : withRoomId st (some rid) f = f rid := by
  simp [withRoomId, h]

/-- A user can only be a participant of an existing room: the participant
query selects among the room rows themselves. -/
theorem getRoom_isSome_of_participant (w : World) (rid uid : Nat)
    (h : isRoomParticipant w rid uid = true) : ∃ room, getRoom w rid = some room := by
  unfold isRoomParticipant at h
  rw [List.any_eq_true] at h
  obtain ⟨r, hr, hpr⟩ := h
  rw [Bool.and_eq_true] at hpr
  have hs : (w.rooms.find? (fun r => r.id == rid)).isSome :=
    List.find?_isSome.mpr ⟨r, hr, hpr.1⟩
  exact Option.isSome_iff_exists.mp hs

/-- Shape of a chat.subscribe by a non-participant: nothing changes and the
only frame is one NOT_PARTICIPANT error. -/
theorem subscribe_not_participant_shape (st : S) (rid : Nat)
    (hrid : rid ≠ 0) (hnew : st.conn.subscribedRooms.contains rid = false)
    (hpart : isRoomParticipant st.world rid st.conn.userId = false) :
    handleChatEvent st (subscribeEvt rid)
      = (st, [Effect.handlerCall "chat",
              Effect.sendSelf (Frame.errCode "NOT_PARTICIPANT" "Not a participant of this room")]) := by
  rw [handleChatEvent_subscribe st (subscribeEvt rid) rfl]
  simp only [subscribeEvt]
  rw [withRoomId_some st rid _ hrid]
  have hmem : rid ∉ st.conn.subscribedRooms := by simpa using hnew
  simp [subscribeToRoom, hmem, hpart]

/-- Shape of a chat.subscribe by a participant of an existing room: the
room is added to the subscription set and the reply effects are the group
join, the chat.subscribed frame, some state snapshot frames that are never
error frames nor membership changes, and the join broadcast. -/
theorem subscribeToRoom_participant (st : S) (rid : Nat)
    (hnew : st.conn.subscribedRooms.contains rid = false)
    (hpart : isRoomParticipant st.world rid st.conn.userId = true) :
    ∃ p snap,
      subscribeToRoom st rid =
        ({ conn := { st.conn with subscribedRooms := st.conn.subscribedRooms ++ [rid] },
           world := (markRoomPresence st.world rid st.conn.userId).1 },
         Effect.groupAdd (Group.chat rid) ::
           Effect.sendSelf (Frame.chatSubscribed rid p) ::
           (snap ++ [Effect.groupSend (Group.chat rid)
             (GroupMsg.presenceUpdate rid "join" st.conn.userId)])) ∧
      snap.countP isErrFrame = 0 ∧ snap.countP isMembershipChange = 0 := by
  obtain ⟨room, hroom⟩ := getRoom_isSome_of_participant st.world rid st.conn.userId hpart
  refine ⟨(markRoomPresence st.world rid st.conn.userId).2,
    (match getNoteState (markRoomPresence st.world rid st.conn.userId).1 rid with
     | some c => [Effect.sendSelf (Frame.collabStateF rid c)]
     | none => []) ++
    ((if (getCursorState (markRoomPresence st.world rid st.conn.userId).1 rid).isEmpty
        then []
        else [Effect.sendSelf (Frame.cursorStateF rid
          (getCursorState (markRoomPresence st.world rid st.conn.userId).1 rid))]) ++
     (if (huddleRosterOf (markRoomPresence st.world rid st.conn.userId).1 rid).isEmpty
        then []
        else [Effect.sendSelf (Frame.huddleParticipantsF rid
          (huddleRosterOf (markRoomPresence st.world rid st.conn.userId).1 rid))])),
    ?_, ?_, ?_⟩
  · have hmem : rid ∉ st.conn.subscribedRooms := by simpa using hnew
    simp only [subscribeToRoom, hpart, hroom]
    simp [hmem, List.append_assoc]
  · rw [List.countP_append, List.countP_append]
    cases hx : getNoteState (markRoomPresence st.world rid st.conn.userId).1 rid <;>
      cases hy : (getCursorState (markRoomPresence st.world rid st.conn.userId).1 rid).isEmpty <;>
      cases hz : (huddleRosterOf (markRoomPresence st.world rid st.conn.userId).1 rid).isEmpty <;>
      simp [hy, hz, isErrFrame, List.countP_cons, List.countP_nil]
  · rw [List.countP_append, List.countP_append]
    cases hx : getNoteState (markRoomPresence st.world rid st.conn.userId).1 rid <;>
      cases hy : (getCursorState (markRoomPresence st.world rid st.conn.userId).1 rid).isEmpty <;>
      cases hz : (huddleRosterOf (markRoomPresence st.world rid st.conn.userId).1 rid).isEmpty <;>
      simp [hy, hz, isMembershipChange, List.countP_cons, List.countP_nil]

/-- Claim C3: for a fresh chat.subscribe with a real room id, the request
succeeds exactly when the caller is a participant of the room: a
participant gets the room added to the subscribed set, a chat.subscribed
frame and no error frame; a non-participant gets exactly one error frame,
with code NOT_PARTICIPANT, and the state (in particular the subscribed
rooms) as well as the group memberships are unchanged. -/
theorem subscribe_iff_participant (st : S) (rid : Nat)
    (hrid : rid ≠ 0) (hnew : st.conn.subscribedRooms.contains rid = false) :
    (isRoomParticipant st.world rid st.conn.userId = true →
      (handleChatEvent st (subscribeEvt rid)).1.conn.subscribedRooms
          = st.conn.subscribedRooms ++ [rid] ∧
      (∃ p, Effect.sendSelf (Frame.chatSubscribed rid p)
          ∈ (handleChatEvent st (subscribeEvt rid)).2) ∧
      (handleChatEvent st (subscribeEvt rid)).2.countP isErrFrame = 0) ∧
    (isRoomParticipant st.world rid st.conn.userId = false →
      (handleChatEvent st (subscribeEvt rid)).1 = st ∧
      (handleChatEvent st (subscribeEvt rid)).2.countP isErrFrame = 1 ∧
      (handleChatEvent st (subscribeEvt rid)).2.countP (hasErrCode "NOT_PARTICIPANT") = 1 ∧
      (handleChatEvent st (subscribeEvt rid)).2.countP isMembershipChange = 0) := by
  constructor
  · intro hpart
    obtain ⟨p, snap, heq, herr, hmem⟩ := subscribeToRoom_participant st rid hnew hpart
    have hall : handleChatEvent st (subscribeEvt rid)
        = ((subscribeToRoom st rid).1,
           Effect.handlerCall "chat" :: (subscribeToRoom st rid).2) := by
      rw [handleChatEvent_subscribe st (subscribeEvt rid) rfl]
      simp only [subscribeEvt]
      rw [withRoomId_some st rid _ hrid]
    rw [hall, heq]
    refine ⟨by simp, ⟨p, by simp⟩, ?_⟩
    simp [List.countP_cons, isErrFrame, herr]
  · intro hpart
    rw [subscribe_not_participant_shape st rid hrid hnew hpart]
    refine ⟨rfl, ?_, ?_, ?_⟩ <;> simp [List.countP_cons, isErrFrame, hasErrCode, isMembershipChange]

/-- Witness for C3 at concrete states: user 7 is a participant of room 42
and not of room 43. -/
theorem subscribe_iff_participant_witness :
    ((43 : Nat) ≠ 0 ∧ stC7.conn.subscribedRooms.contains 43 = false ∧
      isRoomParticipant stC7.world 43 stC7.conn.userId = false ∧
      (handleChatEvent stC7 (subscribeEvt 43)).1 = stC7 ∧
      (handleChatEvent stC7 (subscribeEvt 43)).2.countP (hasErrCode "NOT_PARTICIPANT") = 1) := by
  refine ⟨by decide, by decide, by decide, ?_, ?_⟩
  · exact ((subscribe_iff_participant stC7 43 (by decide) (by decide)).2 (by decide)).1
  · exact ((subscribe_iff_participant stC7 43 (by decide) (by decide)).2 (by decide)).2.2.1

/-- Claim C8 counterexample: subscribing to the nonexistent room 5 is
rejected, but with code NOT_PARTICIPANT and not ROOM_NOT_FOUND, because the
participant check runs before the room lookup and already fails for a
missing room. -/
theorem room_not_found_unreachable_cex :
    (∀ room ∈ stC7.world.rooms, room.id ≠ 5) ∧
    (handleChatEvent stC7 (subscribeEvt 5)).2.countP (hasErrCode "ROOM_NOT_FOUND") = 0 ∧
    (handleChatEvent stC7 (subscribeEvt 5)).2.countP (hasErrCode "NOT_PARTICIPANT") = 1 := by
  decide

/-- Claim C8 (amended): an authenticated fresh chat.subscribe whose room id
matches no room row is rejected with exactly one error frame, but its code
is NOT_PARTICIPANT: the participant query (a filter over the room rows)
fails first, so the ROOM_NOT_FOUND branch is unreachable for a missing
room. -/
theorem missing_room_rejected_as_not_participant (st : S) (rid : Nat)
    (hrid : rid ≠ 0) (hnew : st.conn.subscribedRooms.contains rid = false)
    (hnone : ∀ room ∈ st.world.rooms, room.id ≠ rid) :
    handleChatEvent st (subscribeEvt rid)
      = (st, [Effect.handlerCall "chat",
              Effect.sendSelf (Frame.errCode "NOT_PARTICIPANT" "Not a participant of this room")]) := by
  have hpart : isRoomParticipant st.world rid st.conn.userId = false := by
    unfold isRoomParticipant
    rw [List.any_eq_false]
    intro r hr hcontra
    rw [Bool.and_eq_true, beq_iff_eq] at hcontra
    exact hnone r hr hcontra.1
  exact subscribe_not_participant_shape st rid hrid hnew hpart

/-- Witness for the amended C8 at a concrete state. -/
theorem missing_room_rejected_witness :
    ((5 : Nat) ≠ 0 ∧ stC7.conn.subscribedRooms.contains 5 = false ∧
      (∀ room ∈ stC7.world.rooms, room.id ≠ 5) ∧
      handleChatEvent stC7 (subscribeEvt 5)
        = (stC7, [Effect.handlerCall "chat",
                  Effect.sendSelf (Frame.errCode "NOT_PARTICIPANT" "Not a participant of this room")])) :=
  ⟨by decide, by decide, by decide,
   missing_room_rejected_as_not_participant stC7 5 (by decide) (by decide) (by decide)⟩

/-- The C5 witness room: users 7 to 10 in room 42. -/
def roomC5 : Room := { id := 42, participants := [7, 8, 9, 10] }

/-- The C5 witness world: user 8 is present in the room, user 9 is online
but absent, user 10 is offline. -/
def worldC5 : World :=
  { baseWorld with
    rooms := [roomC5],
    users := [7, 8, 9, 10],
    globalOnline := [7, 9],
    roomPresence := [(42, 8)] }

/-- The C10 witness world: rooms 42 and 43 share user 7, who is in the
huddle of room 42 with an SFU session there. -/
def worldC10 : World :=
  { baseWorld with
    rooms := [{ id := 42, participants := [7, 8, 9] }, { id := 43, participants := [7, 8] }],
    huddleRoster := [(42, 7), (42, 8)],
    sfuSessions := [(42, 7, "s7")] }

/-- The C10 witness state: user 7 active in the huddle of room 42. -/
def stC10 : S := { conn := { conn7 with activeHuddleRoom := some 42 }, world := worldC10 }

/-- SADD makes the element a member. -/
theorem contains_saddList (l : List Nat) (x : Nat) : (saddList l x).contains x = true := by
  unfold saddList
  by_cases h : x ∈ l <;> simp [h]

/-- Joining a huddle one is not in appends the roster entry. -/
theorem addHuddleParticipant_fresh (w : World) (rid uid : Nat)
    (h : (rid, uid) ∉ w.huddleRoster) :
    addHuddleParticipant w rid uid =
      ({ w with huddleRoster := w.huddleRoster ++ [(rid, uid)] },
       huddleRosterOf w rid ++ [uid]) := by
  simp only [addHuddleParticipant, hsetPair, if_neg h]
  simp [huddleRosterOf, List.filter_append]

/-- With no previous active huddle, _join_huddle is just its core. -/
theorem joinHuddle_no_active (st : S) (rid : Nat)
    (hact : st.conn.activeHuddleRoom = none) :
    joinHuddle st rid = joinHuddleCore st rid := by
  simp [joinHuddle, hact]

/-- Claim C4: joining a huddle of a room one participates in, with the SFU
configured and no other active huddle.  If SFU is not yet active and this
fresh join moves the roster to the threshold of 3, exactly one sfu_upgrade
broadcast goes to the room group (and no direct frame), and sfu_active is
set; if SFU is already active, the joiner alone receives exactly one direct
sfu_upgrade frame and no group broadcast occurs; below the threshold
nothing SFU-related is emitted. -/
theorem sfu_threshold (st : S) (rid : Nat)
    (hact : st.conn.activeHuddleRoom = none)
    (hpart : isRoomParticipant st.world rid st.conn.userId = true)
    (hconf : st.world.sfuConfigured = true) :
    (isSfuActive st.world rid = false →
      (rid, st.conn.userId) ∉ st.world.huddleRoster →
      sfuParticipantThreshold ≤ (huddleRosterOf st.world rid).length + 1 →
      (joinHuddle st rid).2.countP isSfuUpgradeBroadcast = 1 ∧
      (joinHuddle st rid).2.countP isDirectSfuUpgrade = 0 ∧
      isSfuActive (joinHuddle st rid).1.world rid = true) ∧
    (isSfuActive st.world rid = true →
      (joinHuddle st rid).2.countP isDirectSfuUpgrade = 1 ∧
      (joinHuddle st rid).2.countP isSfuUpgradeBroadcast = 0) ∧
    (isSfuActive st.world rid = false →
      (rid, st.conn.userId) ∉ st.world.huddleRoster →
      (huddleRosterOf st.world rid).length + 1 < sfuParticipantThreshold →
      (joinHuddle st rid).2.countP isSfuUpgradeBroadcast = 0 ∧
      (joinHuddle st rid).2.countP isDirectSfuUpgrade = 0) := by
  rw [joinHuddle_no_active st rid hact]
  have hnp : ¬¬(isRoomParticipant st.world rid st.conn.userId = true) := by simp [hpart]
  refine ⟨?_, ?_, ?_⟩
  · intro hinact hfresh hthr
    have hadd := addHuddleParticipant_fresh st.world rid st.conn.userId hfresh
    have hthr2 : sfuParticipantThreshold ≤ (huddleRosterOf st.world rid ++ [st.conn.userId]).length := by
      simpa using hthr
    unfold joinHuddleCore
    rw [if_neg hnp]
    simp only [hadd]
    rw [if_neg (by simpa [isSfuActive] using hinact)]
    rw [if_pos hthr2]
    unfold triggerSfuUpgrade
    rw [if_neg (by simpa using hconf)]
    refine ⟨?_, ?_, ?_⟩
    · simp [List.countP_cons, isSfuUpgradeBroadcast]
    · simp [List.countP_cons, isDirectSfuUpgrade]
    · simpa [isSfuActive, setSfuActive] using contains_saddList st.world.sfuActive rid
  · intro hactiv
    unfold joinHuddleCore
    rw [if_neg hnp]
    rw [if_pos (by simpa [isSfuActive, addHuddleParticipant] using hactiv)]
    constructor
    · simp [List.countP_cons, isDirectSfuUpgrade]
    · simp [List.countP_cons, isSfuUpgradeBroadcast]
  · intro hinact hfresh hthr
    have hadd := addHuddleParticipant_fresh st.world rid st.conn.userId hfresh
    have hthr2 : ¬(sfuParticipantThreshold ≤ (huddleRosterOf st.world rid ++ [st.conn.userId]).length) := by
      simp only [List.length_append, List.length_singleton]
      omega
    unfold joinHuddleCore
    rw [if_neg hnp]
    simp only [hadd]
    rw [if_neg (by simpa [isSfuActive] using hinact)]
    rw [if_neg hthr2]
    constructor
    · simp [List.countP_cons, isSfuUpgradeBroadcast]
    · simp [List.countP_cons, isDirectSfuUpgrade]

/-- The C4 witness world in which users 8 and 9 are already in the huddle
of room 42 and SFU is not yet active. -/
def worldC4a : World :=
  { baseWorld with huddleRoster := [(42, 8), (42, 9)] }

/-- The C4 witness world in which SFU is already active for room 42. -/
def worldC4b : World :=
  { baseWorld with huddleRoster := [(42, 8), (42, 9), (42, 10)], sfuActive := [42] }

/-- Witness for C4: the third fresh join broadcasts exactly one upgrade; a
join under active SFU gets exactly one direct frame. -/
theorem sfu_threshold_witness :
    (conn7.activeHuddleRoom = none ∧
      isRoomParticipant worldC4a 42 conn7.userId = true ∧
      worldC4a.sfuConfigured = true ∧
      isSfuActive worldC4a 42 = false ∧
      sfuParticipantThreshold ≤ (huddleRosterOf worldC4a 42).length + 1 ∧
      (joinHuddle { conn := conn7, world := worldC4a } 42).2.countP isSfuUpgradeBroadcast = 1) ∧
    (isSfuActive worldC4b 42 = true ∧
      (joinHuddle { conn := conn7, world := worldC4b } 42).2.countP isDirectSfuUpgrade = 1 ∧
      (joinHuddle { conn := conn7, world := worldC4b } 42).2.countP isSfuUpgradeBroadcast = 0) :=
  ⟨⟨by decide, by decide, by decide, by decide, by decide,
    ((sfu_threshold { conn := conn7, world := worldC4a } 42 (by decide) (by decide)
        (by decide)).1 (by decide) (by decide) (by decide)).1⟩,
   ⟨by decide,
    (sfu_threshold { conn := conn7, world := worldC4b } 42 (by decide) (by decide)
        (by decide)).2.1 (by decide)⟩⟩

/-- HSET never loses the key it writes. -/
theorem mem_hsetPair_self (l : List (Nat × Nat)) (k : Nat × Nat) : k ∈ hsetPair l k := by
  unfold hsetPair
  by_cases hk : k ∈ l <;> simp [hk]

/-- HSET adds no key besides the one written. -/
theorem mem_hsetPair_elim {l : List (Nat × Nat)} {k x : Nat × Nat}
    (h : x ∈ hsetPair l k) : x ∈ l ∨ x = k := by
  unfold hsetPair at h
  by_cases hk : k ∈ l
  · rw [if_pos hk] at h
    exact Or.inl h
  · rw [if_neg hk] at h
    rcases List.mem_append.mp h with h1 | h1
    · exact Or.inl h1
    · exact Or.inr (List.mem_singleton.mp h1)

/-- After the roster entry of a user is deleted, the user is not in the
roster values of that room. -/
theorem not_mem_roster_after_removal (l : List (Nat × Nat)) (a uid : Nat) :
    uid ∉ ((l.filter (fun p => p ≠ (a, uid))).filter
      (fun p => p.1 == a)).map (fun p => p.2) := by
  intro h
  rcases List.mem_map.mp h with ⟨p, hp, hp2⟩
  rcases List.mem_filter.mp hp with ⟨hp3, hp4⟩
  rcases List.mem_filter.mp hp3 with ⟨_, hp6⟩
  have hpa : p.1 = a := by simpa using hp4
  have hne : p ≠ (a, uid) := by simpa using hp6
  exact hne (Prod.ext hpa hp2)

/-- The participant query reads only the room rows. -/
theorem isRoomParticipant_congr {w1 w2 : World} (h : w1.rooms = w2.rooms)
    (b u : Nat) : isRoomParticipant w1 b u = isRoomParticipant w2 b u := by
  unfold isRoomParticipant
  rw [h]

/-- Behaviour of _leave_huddle for a user actually in the huddle roster:
the active huddle is cleared, the roster entry and every SFU session of the
user in that room are gone, the room rows are untouched, and the single
effect is the roster broadcast to the room group with a roster no longer
containing the user. -/
theorem leaveHuddle_mem_facts (st : S) (a : Nat)
    (hmem : (a, st.conn.userId) ∈ st.world.huddleRoster) :
    (leaveHuddle st a).1.conn = { st.conn with activeHuddleRoom := none } ∧
    (a, st.conn.userId) ∉ (leaveHuddle st a).1.world.huddleRoster ∧
    (∀ sid, (a, st.conn.userId, sid) ∉ (leaveHuddle st a).1.world.sfuSessions) ∧
    (leaveHuddle st a).1.world.rooms = st.world.rooms ∧
    (∃ ps, (leaveHuddle st a).2 =
        [Effect.groupSend (Group.chat a) (GroupMsg.huddleParticipants a ps)] ∧
      st.conn.userId ∉ ps) := by
  unfold leaveHuddle
  simp only [removeHuddleParticipant, if_pos hmem]
  refine ⟨?_, ?_, ?_, ?_, ?_⟩
  · first
    | rfl
    | trivial
  · split <;>
      simp [removeUserSession, cleanupRoomSfu, List.mem_filter]
  · intro sid
    split <;>
      simp [removeUserSession, cleanupRoomSfu, List.mem_filter]
  · split <;>
      simp [removeUserSession, cleanupRoomSfu]
  · refine ⟨huddleRosterOf (removeUserSession { st.world with
      huddleRoster := st.world.huddleRoster.filter (fun p => p ≠ (a, st.conn.userId)) }
        a st.conn.userId) a, rfl, ?_⟩
    simp only [huddleRosterOf, removeUserSession]
    exact not_mem_roster_after_removal st.world.huddleRoster a st.conn.userId

/-- Behaviour of the join core for a participant, common to all three SFU
branches: the joined room becomes the active huddle, the roster gains the
entry, the SFU session registry is untouched, and the first effect is the
roster broadcast to the joined room. -/
theorem joinHuddleCore_spec (st : S) (b : Nat)
    (hpart : isRoomParticipant st.world b st.conn.userId = true) :
    (joinHuddleCore st b).1.conn = { st.conn with activeHuddleRoom := some b } ∧
    (joinHuddleCore st b).1.world.huddleRoster
        = hsetPair st.world.huddleRoster (b, st.conn.userId) ∧
    (joinHuddleCore st b).1.world.sfuSessions = st.world.sfuSessions ∧
    (joinHuddleCore st b).2.head? =
      some (Effect.groupSend (Group.chat b) (GroupMsg.huddleParticipants b
        (addHuddleParticipant st.world b st.conn.userId).2)) := by
  unfold joinHuddleCore
  rw [if_neg (by simp [hpart])]
  dsimp only
  refine ⟨?_, ?_, ?_, ?_⟩
  · split
    · rfl
    · split
      · unfold triggerSfuUpgrade
        dsimp only
        split <;> rfl
      · rfl
  · split
    · simp [addHuddleParticipant]
    · split
      · unfold triggerSfuUpgrade
        dsimp only
        split <;> simp [addHuddleParticipant, setSfuActive]
      · simp [addHuddleParticipant]
  · split
    · simp [addHuddleParticipant]
    · split
      · unfold triggerSfuUpgrade
        dsimp only
        split <;> simp [addHuddleParticipant, setSfuActive]
      · simp [addHuddleParticipant]
  · split
    · rfl
    · split
      · unfold triggerSfuUpgrade
        dsimp only
        split <;> rfl
      · rfl

/-- Claim C10: a connection is in at most one huddle: the active huddle
field holds at most one room id, and a huddle.join for room b while huddle
a (a distinct, truthy, with the user in its roster) is active first runs
the full leave of a: after the call the roster of a no longer has the
user, no SFU session of the user remains for a, the first emitted effect
is the roster broadcast to the group of a (without the user), the roster
broadcast of b follows, and the connection ends active in b alone. -/
theorem single_huddle_switch (st : S) (a b : Nat)
    (hact : st.conn.activeHuddleRoom = some a)
    (ha0 : a ≠ 0) (hab : a ≠ b)
    (hmem : (a, st.conn.userId) ∈ st.world.huddleRoster)
    (hpart : isRoomParticipant st.world b st.conn.userId = true) :
    (joinHuddle st b).1.conn.activeHuddleRoom = some b ∧
    (b, st.conn.userId) ∈ (joinHuddle st b).1.world.huddleRoster ∧
    (a, st.conn.userId) ∉ (joinHuddle st b).1.world.huddleRoster ∧
    (∀ sid, (a, st.conn.userId, sid) ∉ (joinHuddle st b).1.world.sfuSessions) ∧
    (∃ ps, (joinHuddle st b).2.head? =
        some (Effect.groupSend (Group.chat a) (GroupMsg.huddleParticipants a ps)) ∧
      st.conn.userId ∉ ps) ∧
    (∃ qs, Effect.groupSend (Group.chat b) (GroupMsg.huddleParticipants b qs)
        ∈ (joinHuddle st b).2) := by
  obtain ⟨hLconn, hLroster, hLsess, hLrooms, ps, hLeff, hLps⟩ :=
    leaveHuddle_mem_facts st a hmem
  have hpart2 : isRoomParticipant (leaveHuddle st a).1.world b
      (leaveHuddle st a).1.conn.userId = true := by
    rw [isRoomParticipant_congr hLrooms, hLconn]
    exact hpart
  obtain ⟨hCconn, hCroster, hCsess, hChead⟩ :=
    joinHuddleCore_spec (leaveHuddle st a).1 b hpart2
  have hjoin : joinHuddle st b =
      ((joinHuddleCore (leaveHuddle st a).1 b).1,
       (leaveHuddle st a).2 ++ (joinHuddleCore (leaveHuddle st a).1 b).2) := by
    simp [joinHuddle, hact, ha0, hab]
  rw [hjoin]
  have huid : (leaveHuddle st a).1.conn.userId = st.conn.userId := by
    rw [hLconn]
  refine ⟨?_, ?_, ?_, ?_, ?_, ?_⟩
  · rw [hCconn]
  · rw [hCroster, huid]
    exact mem_hsetPair_self _ _
  · rw [hCroster, huid]
    intro h
    rcases mem_hsetPair_elim h with h1 | h1
    · exact hLroster h1
    · exact hab (congrArg Prod.fst h1)
  · intro sid
    rw [hCsess]
    exact hLsess sid
  · refine ⟨ps, ?_, hLps⟩
    rw [hLeff]
    rfl
  · rcases hsplit : (joinHuddleCore (leaveHuddle st a).1 b).2 with _ | ⟨e0, tl⟩
    · rw [hsplit] at hChead
      exact absurd hChead (by simp)
    · rw [hsplit] at hChead
      have he0 := Option.some.inj hChead
      refine ⟨(addHuddleParticipant (leaveHuddle st a).1.world b
        (leaveHuddle st a).1.conn.userId).2, ?_⟩
      rw [he0]
      simp

/-- Witness for C10 at a concrete state: user 7, active in the huddle of
room 42, joins the huddle of room 43. -/
theorem single_huddle_switch_witness :
    (stC10.conn.activeHuddleRoom = some 42 ∧
      ((42 : Nat), stC10.conn.userId) ∈ stC10.world.huddleRoster ∧
      isRoomParticipant stC10.world 43 stC10.conn.userId = true) ∧
    (joinHuddle stC10 43).1.conn.activeHuddleRoom = some 43 ∧
    ((42 : Nat), stC10.conn.userId) ∉ (joinHuddle stC10 43).1.world.huddleRoster ∧
    (∀ sid, ((42 : Nat), stC10.conn.userId, sid) ∉ (joinHuddle stC10 43).1.world.sfuSessions) :=
  ⟨⟨by decide, by decide, by decide⟩,
   (single_huddle_switch stC10 42 43 (by decide) (by decide) (by decide) (by decide) (by decide)).1,
   (single_huddle_switch stC10 42 43 (by decide) (by decide) (by decide) (by decide) (by decide)).2.2.1,
   (single_huddle_switch stC10 42 43 (by decide) (by decide) (by decide) (by decide) (by decide)).2.2.2.1⟩

/-- Replacing the content of the first unread row of a pair does not change
any unread count: the matching fields of every row are untouched. -/
theorem countP_updateFirstUnread (db : List NotifRow) (u r : Nat) (c : String)
    (u2 r2 : Nat) :
    (updateFirstUnread db u r c).countP (fun n => unreadMatches n u2 r2)
      = db.countP (fun n => unreadMatches n u2 r2) := by
  induction db with
  | nil => rfl
  | cons n rest ih =>
    by_cases h : unreadMatches n u r = true
    · simp only [updateFirstUnread]
      rw [if_pos h]
      simp [List.countP_cons, unreadMatches]
    · simp only [updateFirstUnread]
      rw [if_neg h]
      simp [List.countP_cons, ih]

/-- The content replacement keeps the number of rows. -/
theorem length_updateFirstUnread (db : List NotifRow) (u r : Nat) (c : String) :
    (updateFirstUnread db u r c).length = db.length := by
  induction db with
  | nil => rfl
  | cons n rest ih =>
    by_cases h : unreadMatches n u r = true <;> simp [updateFirstUnread, h, ih]

/-- After the content replacement, an unread row of the pair carrying the
new content is present. -/
theorem mem_updateFirstUnread (db : List NotifRow) (u r : Nat) (c : String)
    (h : db.any (fun n => unreadMatches n u r) = true) :
    ∃ n ∈ updateFirstUnread db u r c,
      n.userId = u ∧ n.roomId = r ∧ n.isRead = false ∧ n.content = c := by
  induction db with
  | nil => simp at h
  | cons n rest ih =>
    by_cases hn : unreadMatches n u r = true
    · refine ⟨{ n with content := c }, by simp [updateFirstUnread, hn], ?_⟩
      unfold unreadMatches at hn
      rw [Bool.and_eq_true, Bool.and_eq_true] at hn
      refine ⟨?_, ?_, ?_, rfl⟩
      · exact beq_iff_eq.mp hn.1.1
      · exact beq_iff_eq.mp hn.1.2
      · simpa using hn.2
    · have h2 : rest.any (fun n => unreadMatches n u r) = true := by
        rcases (List.any_eq_true.mp h) with ⟨m, hm, hp⟩
        rcases List.mem_cons.mp hm with h3 | h3
        · exact absurd (h3 ▸ hp) hn
        · exact List.any_eq_true.mpr ⟨m, h3, hp⟩
      obtain ⟨m, hm, hp⟩ := ih h2
      exact ⟨m, by simp [updateFirstUnread, hn, hm], hp⟩

/-- One coalescing upsert preserves the at-most-one-unread invariant of
every pair. -/
theorem unreadCount_upsert (db : List NotifRow) (u r : Nat) (c : String) (u2 r2 : Nat)
    (hinv : unreadCount db u2 r2 ≤ 1) :
    unreadCount (updateOrCreateNotification db u r c) u2 r2 ≤ 1 := by
  unfold updateOrCreateNotification
  by_cases h : db.any (fun n => unreadMatches n u r) = true
  · simpa [h, unreadCount, countP_updateFirstUnread] using hinv
  · rw [if_neg h]
    unfold unreadCount at hinv ⊢
    rw [List.countP_append]
    by_cases h2 : u = u2 ∧ r = r2
    · obtain ⟨hu, hr⟩ := h2
      subst hu; subst hr
      have hfalse : db.any (fun n => unreadMatches n u r) = false := by simpa using h
      have h0 : db.countP (fun n => unreadMatches n u r) = 0 := by
        rw [List.countP_eq_zero]
        intro n hn
        exact List.any_eq_false.mp hfalse n hn
      have h1 : List.countP (fun n => unreadMatches n u r)
          [({ userId := u, roomId := r, content := c, isRead := false } : NotifRow)] = 1 := by
        simp [List.countP_cons, unreadMatches]
      rw [h0, h1]
    · have h1 : ([({ userId := u, roomId := r, content := c, isRead := false } : NotifRow)].countP
          (fun n => unreadMatches n u2 r2)) = 0 := by
        rw [List.countP_eq_zero]
        intro n hn
        rw [List.mem_singleton] at hn
        subst hn
        unfold unreadMatches
        simp only [Bool.and_eq_true, beq_iff_eq]
        intro hc
        exact h2 ⟨hc.1.1, hc.1.2⟩
      rw [h1]
      simpa using hinv

/-- Every sequence of coalescing upserts preserves the invariant. -/
theorem unreadCount_fold (ops : List (Nat × Nat × String)) :
    ∀ db : List NotifRow, (∀ u2 r2, unreadCount db u2 r2 ≤ 1) →
      ∀ u2 r2,
        unreadCount (ops.foldl
          (fun d t => updateOrCreateNotification d t.1 t.2.1 t.2.2) db) u2 r2 ≤ 1 := by
  induction ops with
  | nil => intro db h; exact h
  | cons t rest ih =>
    intro db h
    exact ih _ (fun u2 r2 => unreadCount_upsert db t.1 t.2.1 t.2.2 u2 r2 (h u2 r2))

/-- Claim C6: starting from a notification table with at most one unread
row per (user, room) pair, any sequence of _create_notification upserts
keeps that invariant, and when the pair already has an unread row a new
notification replaces the content of that row instead of adding a row. -/
theorem notification_coalescing (db : List NotifRow) (ops : List (Nat × Nat × String))
    (u r : Nat) (c : String)
    (hinv : ∀ u2 r2, unreadCount db u2 r2 ≤ 1) :
    (∀ u2 r2, unreadCount (ops.foldl
        (fun d t => updateOrCreateNotification d t.1 t.2.1 t.2.2) db) u2 r2 ≤ 1) ∧
    (0 < unreadCount db u r →
      (updateOrCreateNotification db u r c).length = db.length ∧
      ∃ n ∈ updateOrCreateNotification db u r c,
        n.userId = u ∧ n.roomId = r ∧ n.isRead = false ∧ n.content = c) := by
  refine ⟨unreadCount_fold ops db hinv, ?_⟩
  intro hpos
  have hany : db.any (fun n => unreadMatches n u r) = true := by
    rcases List.countP_pos_iff.mp hpos with ⟨n, hn, hp⟩
    exact List.any_eq_true.mpr ⟨n, hn, hp⟩
  unfold updateOrCreateNotification
  rw [if_pos hany]
  exact ⟨length_updateFirstUnread db u r c, mem_updateFirstUnread db u r c hany⟩

/-- The one-row notification table of the C6 witness. -/
def dbC6 : List NotifRow :=
  [{ userId := 9, roomId := 42, content := "old", isRead := false }]

/-- Witness for C6 at a concrete table: one unread row for user 9 in room
42, followed by two further upserts for the same pair. -/
theorem notification_coalescing_witness :
    (∀ u2 r2, unreadCount dbC6 u2 r2 ≤ 1) ∧
    ((∀ u2 r2, unreadCount ([((9 : Nat), (42 : Nat), "a"), (9, 42, "b")].foldl
        (fun d t => updateOrCreateNotification d t.1 t.2.1 t.2.2) dbC6) u2 r2 ≤ 1) ∧
     (0 < unreadCount dbC6 9 42 →
       (updateOrCreateNotification dbC6 9 42 "x").length = dbC6.length ∧
       ∃ n ∈ updateOrCreateNotification dbC6 9 42 "x",
         n.userId = 9 ∧ n.roomId = 42 ∧ n.isRead = false ∧ n.content = "x")) :=
  have hinv : ∀ u2 r2, unreadCount dbC6 u2 r2 ≤ 1 :=
    fun _ _ => List.countP_le_length _
  ⟨hinv, notification_coalescing dbC6 [(9, 42, "a"), (9, 42, "b")] 9 42 "x" hinv⟩

/-- Claim C7 (amended): for an authenticated connection, a ping frame is
answered with exactly one pong frame carrying the timestamp; no presence
state is touched (the world is unchanged); but the idle clock IS reset,
because receive stamps last_activity for every well-formed frame before
dispatching, ping included. -/
theorem ping_pong_no_presence_refresh (env : Env) (now : Nat) (st : S) (e : EvtData)
    (ha : st.conn.isAuthenticated = true) (hty : e.ty = "ping") :
    receive env now st (InFrame.evt e) =
      ({ st with conn := { st.conn with lastActivity := now } },
       [Effect.sendSelf (Frame.pong now)]) := by
  simp [receive, hty, ha]

/-- Witness for the amended C7 at a concrete state. -/
theorem ping_pong_no_presence_refresh_witness :
    stC7.conn.isAuthenticated = true ∧
    receive envT 77 stC7 (InFrame.evt pingEvt) =
      ({ stC7 with conn := { stC7.conn with lastActivity := 77 } },
       [Effect.sendSelf (Frame.pong 77)]) :=
  ⟨rfl, ping_pong_no_presence_refresh envT 77 stC7 pingEvt rfl rfl⟩

/-- One receive on an unauthenticated connection with a frame that is not
a successful auth leaves the connection unauthenticated and invokes no
namespace handler. -/
theorem receive_unauth_step (env : Env) (now : Nat) (st : S) (f : InFrame)
    (h0 : st.conn.isAuthenticated = false)
    (hns : isSuccessfulAuth env f = false) :
    (receive env now st f).1.conn.isAuthenticated = false ∧
    handlerCalls (receive env now st f).2 = [] := by
  cases f with
  | badJson => exact ⟨h0, rfl⟩
  | evt e =>
    by_cases hty : (e.ty == "auth") = true
    · have hns2 : (match e.token with
          | none => false
          | some t => (env.tokenUser t).isSome) = false := by
        unfold isSuccessfulAuth at hns
        simpa [hty] using hns
      unfold receive
      dsimp only
      rw [if_pos hty]
      unfold handleAuth
      rcases he : e.token with _ | t
      · exact ⟨h0, rfl⟩
      · rw [he] at hns2
        dsimp only at hns2
        have hnone : env.tokenUser t = none := by
          rcases henv : env.tokenUser t with _ | u
          · rfl
          · rw [henv] at hns2
            simp at hns2
        dsimp only
        rw [hnone]
        exact ⟨h0, rfl⟩
    · unfold receive
      dsimp only
      rw [if_neg hty]
      rw [if_pos (by simp [h0])]
      exact ⟨h0, rfl⟩

/-- A run of frames none of which is a successful auth keeps the connection
unauthenticated and invokes no namespace handler. -/
theorem runFrames_unauth (env : Env) (now : Nat) (fs : List InFrame) :
    ∀ st : S, st.conn.isAuthenticated = false →
    (∀ g ∈ fs, isSuccessfulAuth env g = false) →
    (runFrames env now st fs).1.conn.isAuthenticated = false ∧
    handlerCalls (runFrames env now st fs).2 = [] := by
  induction fs with
  | nil =>
    intro st h0 _
    exact ⟨h0, rfl⟩
  | cons f fs ih =>
    intro st h0 hall
    unfold runFrames
    by_cases hc : st.conn.closed = true
    · rw [if_pos hc]
      exact ⟨h0, rfl⟩
    · rw [if_neg hc]
      have hstep := receive_unauth_step env now st f h0 (hall f (by simp))
      have ihr := ih (receive env now st f).1 hstep.1
        (fun g hg => hall g (by simp [hg]))
      refine ⟨ihr.1, ?_⟩
      have hstep2 : List.filter isHandlerCall (receive env now st f).2 = [] := hstep.2
      have ihr2 : List.filter isHandlerCall
          (runFrames env now (receive env now st f).1 fs).2 = [] := ihr.2
      unfold handlerCalls
      rw [List.filter_append, hstep2, ihr2]
      rfl

/-- Claim C1: over any sequence of frames containing no successful auth, no
chat, huddle or global handler ever executes; and any well-formed non-auth
event received while the (still open) connection is unauthenticated is
answered with exactly one error frame with code AUTH_REQUIRED, the
connection staying open. -/
theorem auth_gate (env : Env) (now : Nat) (st : S) (pre : List InFrame)
    (f : InFrame) (rest : List InFrame)
    (h0 : st.conn.isAuthenticated = false)
    (hall : ∀ g ∈ pre ++ f :: rest, isSuccessfulAuth env g = false)
    (hopen : (runFrames env now st pre).1.conn.closed = false)
    (hf : isNonAuthEvent f = true) :
    handlerCalls (runFrames env now st (pre ++ f :: rest)).2 = [] ∧
    (receive env now (runFrames env now st pre).1 f).2
      = [Effect.sendSelf (Frame.errCode "AUTH_REQUIRED" "Authentication required")] ∧
    (receive env now (runFrames env now st pre).1 f).1.conn.closed = false := by
  have hpre : ∀ g ∈ pre, isSuccessfulAuth env g = false :=
    fun g hg => hall g (by simp [hg])
  have hrun := runFrames_unauth env now (pre ++ f :: rest) st h0 hall
  have hrunpre := runFrames_unauth env now pre st h0 hpre
  refine ⟨hrun.2, ?_, ?_⟩
  · rcases f with _ | e
    · simp [isNonAuthEvent] at hf
    · have hty : (e.ty == "auth") = false := by
        simpa [isNonAuthEvent] using hf
      unfold receive
      dsimp only
      rw [if_neg (by simp [hty])]
      rw [if_pos (by simp [hrunpre.1])]
  · rcases f with _ | e
    · simp [isNonAuthEvent] at hf
    · have hty : (e.ty == "auth") = false := by
        simpa [isNonAuthEvent] using hf
      unfold receive
      dsimp only
      rw [if_neg (by simp [hty])]
      rw [if_pos (by simp [hrunpre.1])]
      simpa using hopen

/-- The initial state of a fresh connection over the base world. -/
def stInit : S := { conn := connInit, world := baseWorld }

/-- An auth event with no token. -/
def authNoTokenEvt : EvtData := { ty := "auth" }

/-- Witness for C1: a token-less auth attempt, then a chat.subscribe while
still unauthenticated, then malformed JSON. -/
theorem auth_gate_witness :
    stInit.conn.isAuthenticated = false ∧
    (runFrames envT 5 stInit [InFrame.evt authNoTokenEvt]).1.conn.closed = false ∧
    handlerCalls (runFrames envT 5 stInit
      ([InFrame.evt authNoTokenEvt] ++ InFrame.evt (subscribeEvt 42) :: [InFrame.badJson])).2 = [] ∧
    (receive envT 5 (runFrames envT 5 stInit [InFrame.evt authNoTokenEvt]).1
        (InFrame.evt (subscribeEvt 42))).2
      = [Effect.sendSelf (Frame.errCode "AUTH_REQUIRED" "Authentication required")] ∧
    (receive envT 5 (runFrames envT 5 stInit [InFrame.evt authNoTokenEvt]).1
        (InFrame.evt (subscribeEvt 42))).1.conn.closed = false :=
  ⟨rfl, rfl,
   (auth_gate envT 5 stInit [InFrame.evt authNoTokenEvt] (InFrame.evt (subscribeEvt 42))
      [InFrame.badJson] rfl (by decide) rfl rfl).1,
   (auth_gate envT 5 stInit [InFrame.evt authNoTokenEvt] (InFrame.evt (subscribeEvt 42))
      [InFrame.badJson] rfl (by decide) rfl rfl).2.1,
   (auth_gate envT 5 stInit [InFrame.evt authNoTokenEvt] (InFrame.evt (subscribeEvt 42))
      [InFrame.badJson] rfl (by decide) rfl rfl).2.2⟩

/-- A message preview is at most 100 characters. -/
theorem messagePreview_le (c : String) :
    ∀ s2, messagePreview c = some s2 → s2.length ≤ 100 := by
  intro s2 h
  unfold messagePreview at h
  by_cases hc : c = ""
  · rw [if_pos hc] at h
    cases h
  · rw [if_neg hc] at h
    have h2 : (⟨c.data.take 100⟩ : String) = s2 := Option.some.inj h
    rw [← h2]
    show (c.data.take 100).length ≤ 100
    rw [List.length_take]
    exact min_le_left _ _

/-- A fan-out iteration only ever touches the notification table of the
world. -/
theorem notifyOne_preserves (w : World) (rid sid : Nat) (sn c : String)
    (ha : Bool) (q : Nat) :
    (notifyOne w rid sid sn c ha q).1.roomPresence = w.roomPresence ∧
    (notifyOne w rid sid sn c ha q).1.globalOnline = w.globalOnline ∧
    (notifyOne w rid sid sn c ha q).1.users = w.users := by
  refine ⟨?_, ?_, ?_⟩ <;>
  · unfold notifyOne createNotification
    split
    · rfl
    · split
      · rfl
      · split <;> rfl

/-- Replacing the content of an unread row keeps the per-user row lists of
every other user. -/
theorem notifRowsFor_updateFirstUnread (db : List NotifRow) (q rid : Nat)
    (c : String) (p : Nat) :
    (updateFirstUnread db q rid c).filter (fun n => n.userId == p)
      = db.filter (fun n => n.userId == p)
      ∨ q = p := by
  by_cases hqp : q = p
  · exact Or.inr hqp
  · refine Or.inl ?_
    induction db with
    | nil => rfl
    | cons n rest ih =>
      by_cases h : unreadMatches n q rid = true
      · simp only [updateFirstUnread]
        rw [if_pos h]
        have hnu : n.userId = q := by
          unfold unreadMatches at h
          rw [Bool.and_eq_true, Bool.and_eq_true] at h
          exact beq_iff_eq.mp h.1.1
        simp [List.filter_cons, hnu, hqp]
      · simp only [updateFirstUnread]
        rw [if_neg h]
        simp [List.filter_cons, ih]

/-- A coalescing upsert for one user leaves the rows of every other user
untouched. -/
theorem notifRowsFor_upsert_other (db : List NotifRow) (q rid : Nat)
    (c : String) (p : Nat) (hne : q ≠ p) :
    notifRowsFor (updateOrCreateNotification db q rid c) p
      = notifRowsFor db p := by
  unfold updateOrCreateNotification notifRowsFor
  by_cases hany : db.any (fun n => unreadMatches n q rid) = true
  · rw [if_pos hany]
    rcases notifRowsFor_updateFirstUnread db q rid c p with h | h
    · exact h
    · exact absurd h hne
  · rw [if_neg hany]
    rw [List.filter_append]
    simp [hne]

/-- A fan-out iteration for one participant leaves the notification rows of
every other user untouched. -/
theorem notifyOne_notifs_other (w : World) (rid sid : Nat) (sn c : String)
    (ha : Bool) (q p : Nat) (hne : q ≠ p) :
    notifRowsFor (notifyOne w rid sid sn c ha q).1.notifications p
      = notifRowsFor w.notifications p := by
  unfold notifyOne
  split
  · rfl
  · split
    · rfl
    · unfold createNotification
      split
      · exact notifRowsFor_upsert_other w.notifications q rid _ p hne
      · rfl

/-- A fan-out iteration addresses direct sends only to its own
participant. -/
theorem notifyOne_sends (w : World) (rid sid : Nat) (sn c : String)
    (ha : Bool) (q p : Nat) (hne : q ≠ p) :
    (notifyOne w rid sid sn c ha q).2.countP (sentToUser p) = 0 := by
  unfold notifyOne
  split
  · rfl
  · split
    · simp [List.countP_cons, sentToUser, hne]
    · rfl

/-- The fan-out loop depends, for its effects, only on the presence and
online sets, which it never changes; participants not in the id list get
no direct sends and keep their notification rows. -/
theorem notifyLoop_other (rid sid : Nat) (sn c : String) (ha : Bool) (p : Nat) :
    ∀ (ids : List Nat) (w : World), p ∉ ids →
      (notifyLoop rid sid sn c ha w ids).2.countP (sentToUser p) = 0 ∧
      notifRowsFor (notifyLoop rid sid sn c ha w ids).1.notifications p
        = notifRowsFor w.notifications p := by
  intro ids
  induction ids with
  | nil => intro w _; exact ⟨rfl, rfl⟩
  | cons q qs ih =>
    intro w hnp
    have hqp : q ≠ p := fun h => hnp (h ▸ List.mem_cons_self q qs)
    have hrest : p ∉ qs := fun h => hnp (List.mem_cons_of_mem q h)
    have ihq := ih (notifyOne w rid sid sn c ha q).1 hrest
    unfold notifyLoop
    constructor
    · rw [List.countP_append]
      rw [notifyOne_sends w rid sid sn c ha q p hqp, ihq.1]
    · rw [ihq.2]
      exact notifyOne_notifs_other w rid sid sn c ha q p hqp

/-- The fan-out loop never changes the presence, online or user sets. -/
theorem notifyLoop_preserves (rid sid : Nat) (sn c : String) (ha : Bool) :
    ∀ (ids : List Nat) (w : World),
      (notifyLoop rid sid sn c ha w ids).1.roomPresence = w.roomPresence ∧
      (notifyLoop rid sid sn c ha w ids).1.globalOnline = w.globalOnline ∧
      (notifyLoop rid sid sn c ha w ids).1.users = w.users := by
  intro ids
  induction ids with
  | nil => intro w; exact ⟨rfl, rfl, rfl⟩
  | cons q qs ih =>
    intro w
    have h1 := notifyOne_preserves w rid sid sn c ha q
    have h2 := ih (notifyOne w rid sid sn c ha q).1
    exact ⟨h2.1.trans h1.1, h2.2.1.trans h1.2.1, h2.2.2.trans h1.2.2⟩

/-- The fan-out loop splits over list append. -/
theorem notifyLoop_append (rid sid : Nat) (sn c : String) (ha : Bool) :
    ∀ (l1 l2 : List Nat) (w : World),
      notifyLoop rid sid sn c ha w (l1 ++ l2)
        = ((notifyLoop rid sid sn c ha (notifyLoop rid sid sn c ha w l1).1 l2).1,
           (notifyLoop rid sid sn c ha w l1).2
             ++ (notifyLoop rid sid sn c ha (notifyLoop rid sid sn c ha w l1).1 l2).2) := by
  intro l1
  induction l1 with
  | nil => intro l2 w; rfl
  | cons q qs ih =>
    intro l2 w
    have h1 : notifyLoop rid sid sn c ha w ((q :: qs) ++ l2)
        = ((notifyLoop rid sid sn c ha (notifyOne w rid sid sn c ha q).1 (qs ++ l2)).1,
           (notifyOne w rid sid sn c ha q).2
             ++ (notifyLoop rid sid sn c ha (notifyOne w rid sid sn c ha q).1 (qs ++ l2)).2) := rfl
    have h2 : notifyLoop rid sid sn c ha w (q :: qs)
        = ((notifyLoop rid sid sn c ha (notifyOne w rid sid sn c ha q).1 qs).1,
           (notifyOne w rid sid sn c ha q).2
             ++ (notifyLoop rid sid sn c ha (notifyOne w rid sid sn c ha q).1 qs).2) := rfl
    rw [h1, h2]
    rw [ih l2 (notifyOne w rid sid sn c ha q).1]
    simp [List.append_assoc]

/-- The coalescing upsert always leaves an unread row of the pair carrying
the new content. -/
theorem upsert_mem (db : List NotifRow) (u r : Nat) (c : String) :
    ∃ n ∈ updateOrCreateNotification db u r c,
      n.userId = u ∧ n.roomId = r ∧ n.isRead = false ∧ n.content = c := by
  unfold updateOrCreateNotification
  by_cases hany : db.any (fun n => unreadMatches n u r) = true
  · rw [if_pos hany]
    exact mem_updateFirstUnread db u r c hany
  · rw [if_neg hany]
    exact ⟨{ userId := u, roomId := r, content := c, isRead := false },
      List.mem_append_right _ (List.mem_singleton.mpr rfl), rfl, rfl, rfl, rfl⟩

/-- Claim C5: per-participant behaviour of the _notify_participants
fan-out after a successful chat.send_message.  A participant other than
the sender with an entry in the room presence hash receives nothing from
the fan-out and keeps their notification rows unchanged; one absent from
the room but in the global online set receives exactly one ephemeral
new_message_notification on their user group, carrying the sender id and
name, a message preview of at most 100 characters and the attachment
flag, again with no durable change; an offline participant receives
nothing and an unread coalesced notification row reading New message from
the sender is upserted for them. -/
theorem notify_participants_fanout (w : World) (rid : Nat) (room : Room)
    (sid : Nat) (sn c : String) (ha : Bool) (p : Nat)
    (hnd : room.participants.Nodup)
    (hp : p ∈ room.participants) (hps : p ≠ sid) :
    ((rid, p) ∈ w.roomPresence →
      (notifyParticipants w rid room sid sn c ha).2.countP (sentToUser p) = 0 ∧
      notifRowsFor (notifyParticipants w rid room sid sn c ha).1.notifications p
        = notifRowsFor w.notifications p) ∧
    ((rid, p) ∉ w.roomPresence → w.globalOnline.contains p = true →
      (notifyParticipants w rid room sid sn c ha).2.countP (sentToUser p) = 1 ∧
      Effect.groupSend (Group.user p)
          (GroupMsg.newMessageNotification rid sid sn (messagePreview c) ha)
        ∈ (notifyParticipants w rid room sid sn c ha).2 ∧
      (∀ s2, messagePreview c = some s2 → s2.length ≤ 100) ∧
      notifRowsFor (notifyParticipants w rid room sid sn c ha).1.notifications p
        = notifRowsFor w.notifications p) ∧
    ((rid, p) ∉ w.roomPresence → w.globalOnline.contains p = false →
      w.users.contains p = true →
      (notifyParticipants w rid room sid sn c ha).2.countP (sentToUser p) = 0 ∧
      ∃ n ∈ (notifyParticipants w rid room sid sn c ha).1.notifications,
        n.userId = p ∧ n.roomId = rid ∧ n.isRead = false ∧
        n.content = "New message from " ++ sn) := by
  have hpid : p ∈ participantIdsExcluding room sid :=
    List.mem_filter.mpr ⟨hp, by simpa using hps⟩
  have hndid : (participantIdsExcluding room sid).Nodup := hnd.filter _
  obtain ⟨l1, l2, hsplit⟩ := List.append_of_mem hpid
  have hnd2 : (l1 ++ p :: l2).Nodup := hsplit ▸ hndid
  have hpl1 : p ∉ l1 := by
    have hdis := (List.nodup_append.mp hnd2).2.2
    intro hmem
    exact hdis hmem (List.mem_cons_self p l2)
  have hpl2 : p ∉ l2 := (List.nodup_cons.mp (List.nodup_append.mp hnd2).2.1).1
  have heq : notifyParticipants w rid room sid sn c ha
      = notifyLoop rid sid sn c ha w (l1 ++ p :: l2) := by
    unfold notifyParticipants
    rw [hsplit]
  rw [heq, notifyLoop_append rid sid sn c ha l1 (p :: l2) w]
  set w1 := (notifyLoop rid sid sn c ha w l1).1 with hw1
  have hpre := notifyLoop_preserves rid sid sn c ha l1 w
  have hother1 := notifyLoop_other rid sid sn c ha p l1 w hpl1
  have hstep : notifyLoop rid sid sn c ha w1 (p :: l2)
      = ((notifyLoop rid sid sn c ha (notifyOne w1 rid sid sn c ha p).1 l2).1,
         (notifyOne w1 rid sid sn c ha p).2
           ++ (notifyLoop rid sid sn c ha (notifyOne w1 rid sid sn c ha p).1 l2).2) := rfl
  rw [hstep]
  have hother2 := notifyLoop_other rid sid sn c ha p l2
    (notifyOne w1 rid sid sn c ha p).1 hpl2
  refine ⟨?_, ?_, ?_⟩
  · intro hin
    have hin1 : (rid, p) ∈ w1.roomPresence := by
      rw [hpre.1]
      exact hin
    have hone : notifyOne w1 rid sid sn c ha p = (w1, []) := by
      unfold notifyOne
      rw [if_pos hin1]
    rw [hone] at hother2
    constructor
    · show ((notifyLoop rid sid sn c ha w l1).2
          ++ ((notifyOne w1 rid sid sn c ha p).2
            ++ (notifyLoop rid sid sn c ha (notifyOne w1 rid sid sn c ha p).1 l2).2)).countP
          (sentToUser p) = 0
      rw [hone]
      rw [List.countP_append, List.countP_append, hother1.1, hother2.1]
      rfl
    · show notifRowsFor (notifyLoop rid sid sn c ha
          (notifyOne w1 rid sid sn c ha p).1 l2).1.notifications p
          = notifRowsFor w.notifications p
      rw [hone]
      rw [hother2.2]
      exact hother1.2
  · intro hin hon
    have hin1 : (rid, p) ∉ w1.roomPresence := by
      rw [hpre.1]
      exact hin
    have hon1 : w1.globalOnline.contains p = true := by
      rw [hpre.2.1]
      exact hon
    have hone : notifyOne w1 rid sid sn c ha p =
        (w1, [Effect.groupSend (Group.user p)
          (GroupMsg.newMessageNotification rid sid sn (messagePreview c) ha)]) := by
      unfold notifyOne
      rw [if_neg hin1, if_pos hon1]
    rw [hone] at hother2
    refine ⟨?_, ?_, messagePreview_le c, ?_⟩
    · show ((notifyLoop rid sid sn c ha w l1).2
          ++ ((notifyOne w1 rid sid sn c ha p).2
            ++ (notifyLoop rid sid sn c ha (notifyOne w1 rid sid sn c ha p).1 l2).2)).countP
          (sentToUser p) = 0 + (1 + 0)
      rw [hone]
      rw [List.countP_append, List.countP_append, hother1.1, hother2.1]
      simp [List.countP_cons, sentToUser]
    · show Effect.groupSend (Group.user p)
          (GroupMsg.newMessageNotification rid sid sn (messagePreview c) ha)
        ∈ (notifyLoop rid sid sn c ha w l1).2
          ++ ((notifyOne w1 rid sid sn c ha p).2
            ++ (notifyLoop rid sid sn c ha (notifyOne w1 rid sid sn c ha p).1 l2).2)
      rw [hone]
      simp
    · show notifRowsFor (notifyLoop rid sid sn c ha
          (notifyOne w1 rid sid sn c ha p).1 l2).1.notifications p
          = notifRowsFor w.notifications p
      rw [hone]
      rw [hother2.2]
      exact hother1.2
  · intro hin hoff husr
    have hin1 : (rid, p) ∉ w1.roomPresence := by
      rw [hpre.1]
      exact hin
    have hoff1 : w1.globalOnline.contains p = false := by
      rw [hpre.2.1]
      exact hoff
    have husr1 : w1.users.contains p = true := by
      rw [hpre.2.2]
      exact husr
    have hone : notifyOne w1 rid sid sn c ha p
        = (createNotification w1 p rid ("New message from " ++ sn), []) := by
      unfold notifyOne
      rw [if_neg hin1]
      rw [if_neg (by rw [hoff1]; simp)]
    have hcreate : (createNotification w1 p rid ("New message from " ++ sn)).notifications
        = updateOrCreateNotification w1.notifications p rid ("New message from " ++ sn) := by
      unfold createNotification
      rw [if_pos husr1]
    constructor
    · show ((notifyLoop rid sid sn c ha w l1).2
          ++ ((notifyOne w1 rid sid sn c ha p).2
            ++ (notifyLoop rid sid sn c ha (notifyOne w1 rid sid sn c ha p).1 l2).2)).countP
          (sentToUser p) = 0
      rw [hone]
      rw [List.countP_append, List.countP_append, hother1.1]
      rw [hone] at hother2
      rw [hother2.1]
      rfl
    · obtain ⟨n, hn, hfield⟩ := upsert_mem w1.notifications p rid ("New message from " ++ sn)
      refine ⟨n, ?_, hfield⟩
      have hnp : n ∈ notifRowsFor (notifyOne w1 rid sid sn c ha p).1.notifications p := by
        rw [hone]
        show n ∈ notifRowsFor
          (createNotification w1 p rid ("New message from " ++ sn)).notifications p
        rw [hcreate]
        exact List.mem_filter.mpr ⟨hn, by simp [hfield.1]⟩
      have hnf : n ∈ notifRowsFor (notifyLoop rid sid sn c ha
          (notifyOne w1 rid sid sn c ha p).1 l2).1.notifications p := by
        rw [hother2.2]
        exact hnp
      exact (List.mem_filter.mp hnf).1

/-- Witness for C5 at a concrete state: sender 7 in room 42; user 9 is
online but not in the room, user 10 is offline. -/
theorem notify_participants_fanout_witness :
    (roomC5.participants.Nodup ∧ (9 : Nat) ∈ roomC5.participants ∧
      ((42 : Nat), (9 : Nat)) ∉ worldC5.roomPresence ∧
      worldC5.globalOnline.contains 9 = true) ∧
    ((notifyParticipants worldC5 42 roomC5 7 "alice" "hi" false).2.countP (sentToUser 9) = 1 ∧
      Effect.groupSend (Group.user 9)
          (GroupMsg.newMessageNotification 42 7 "alice" (messagePreview "hi") false)
        ∈ (notifyParticipants worldC5 42 roomC5 7 "alice" "hi" false).2 ∧
      (∀ s2, messagePreview "hi" = some s2 → s2.length ≤ 100) ∧
      notifRowsFor (notifyParticipants worldC5 42 roomC5 7 "alice" "hi" false).1.notifications 9
        = notifRowsFor worldC5.notifications 9) ∧
    ((notifyParticipants worldC5 42 roomC5 7 "alice" "hi" false).2.countP (sentToUser 10) = 0 ∧
      ∃ n ∈ (notifyParticipants worldC5 42 roomC5 7 "alice" "hi" false).1.notifications,
        n.userId = 10 ∧ n.roomId = 42 ∧ n.isRead = false ∧
        n.content = "New message from " ++ "alice") :=
  ⟨⟨by decide, by decide, by decide, by decide⟩,
   (notify_participants_fanout worldC5 42 roomC5 7 "alice" "hi" false 9
      (by decide) (by decide) (by decide)).2.1 (by decide) (by decide),
   (notify_participants_fanout worldC5 42 roomC5 7 "alice" "hi" false 10
      (by decide) (by decide) (by decide)).2.2 (by decide) (by decide) (by decide)⟩

/-- Cancelling already-cancelled tasks does not change the connection. -/
theorem conn_cancel_tasks_id (c : Conn) (h1 : c.heartbeatTask = false)
    (h2 : c.presenceRefreshTask = false) :
    ({ c with heartbeatTask := false, presenceRefreshTask := false } : Conn) = c := by
  cases c
  simp_all

/-- Cancelling already-cancelled tasks does not change the state. -/
theorem cancel_tasks_id (s : S) (h1 : s.conn.heartbeatTask = false)
    (h2 : s.conn.presenceRefreshTask = false) :
    ({ s with conn := { s.conn with heartbeatTask := false, presenceRefreshTask := false } } : S) = s := by
  rw [conn_cancel_tasks_id s.conn h1 h2]

/-- SREM is idempotent. -/
theorem sremList_idem (l : List Nat) (x : Nat) :
    sremList (sremList l x) x = sremList l x := by
  simp [sremList, List.filter_filter]

/-- _leave_chat_room changes, on the connection, only the subscribed-rooms
set, and leaves the global online set and the huddle roster alone. -/
theorem leaveChatRoom_fields (st : S) (rid : Nat) :
    (leaveChatRoom st rid).1.conn.userId = st.conn.userId ∧
    (leaveChatRoom st rid).1.conn.isAuthenticated = st.conn.isAuthenticated ∧
    (leaveChatRoom st rid).1.conn.activeHuddleRoom = st.conn.activeHuddleRoom ∧
    (leaveChatRoom st rid).1.conn.heartbeatTask = st.conn.heartbeatTask ∧
    (leaveChatRoom st rid).1.conn.presenceRefreshTask = st.conn.presenceRefreshTask ∧
    (leaveChatRoom st rid).1.world.globalOnline = st.world.globalOnline ∧
    (leaveChatRoom st rid).1.world.huddleRoster = st.world.huddleRoster := by
  refine ⟨rfl, rfl, rfl, rfl, rfl, ?_, ?_⟩ <;>
    · unfold leaveChatRoom removeRoomPresence clearTypingState
      split <;> rfl

/-- The room-leaving loop of disconnect preserves every connection field
except the subscribed-rooms set, and the global online set and huddle
roster of the world. -/
theorem leaveStep_fold_facts (l : List Nat) : ∀ (acc : S × List Effect),
    ((l.foldl leaveStep acc).1).conn.userId = acc.1.conn.userId ∧
    ((l.foldl leaveStep acc).1).conn.isAuthenticated = acc.1.conn.isAuthenticated ∧
    ((l.foldl leaveStep acc).1).conn.activeHuddleRoom = acc.1.conn.activeHuddleRoom ∧
    ((l.foldl leaveStep acc).1).conn.heartbeatTask = acc.1.conn.heartbeatTask ∧
    ((l.foldl leaveStep acc).1).conn.presenceRefreshTask = acc.1.conn.presenceRefreshTask ∧
    ((l.foldl leaveStep acc).1).world.globalOnline = acc.1.world.globalOnline ∧
    ((l.foldl leaveStep acc).1).world.huddleRoster = acc.1.world.huddleRoster := by
  induction l with
  | nil => intro acc; exact ⟨rfl, rfl, rfl, rfl, rfl, rfl, rfl⟩
  | cons r rs ih =>
    intro acc
    rw [List.foldl_cons]
    have h1 := leaveChatRoom_fields acc.1 r
    have h2 := ih (leaveStep acc r)
    exact ⟨h2.1.trans h1.1, h2.2.1.trans h1.2.1, h2.2.2.1.trans h1.2.2.1,
      h2.2.2.2.1.trans h1.2.2.2.1, h2.2.2.2.2.1.trans h1.2.2.2.2.1,
      h2.2.2.2.2.2.1.trans h1.2.2.2.2.2.1, h2.2.2.2.2.2.2.trans h1.2.2.2.2.2.2⟩

/-- When every initially subscribed room is in the loop list, the loop
empties the subscribed-rooms set. -/
theorem leaveStep_fold_subscribed_nil (l : List Nat) : ∀ (acc : S × List Effect),
    (∀ x ∈ acc.1.conn.subscribedRooms, x ∈ l) →
    ((l.foldl leaveStep acc).1).conn.subscribedRooms = [] := by
  induction l with
  | nil =>
    intro acc h
    exact List.eq_nil_iff_forall_not_mem.mpr
      (fun x hx => absurd (h x hx) (List.not_mem_nil x))
  | cons r rs ih =>
    intro acc h
    rw [List.foldl_cons]
    apply ih
    intro x hx
    have hx2 : x ∈ acc.1.conn.subscribedRooms.filter (fun y => y ≠ r) := hx
    rcases List.mem_filter.mp hx2 with ⟨hmem2, hne⟩
    rcases List.mem_cons.mp (h x hmem2) with h3 | h3
    · exact absurd h3 (by simpa using hne)
    · exact h3

/-- _leave_huddle clears the active-huddle field. -/
theorem leaveHuddle_conn_active (st : S) (a : Nat) :
    (leaveHuddle st a).1.conn.activeHuddleRoom = none := rfl

/-- _leave_huddle preserves the remaining connection fields. -/
theorem leaveHuddle_conn_fields (st : S) (a : Nat) :
    (leaveHuddle st a).1.conn.userId = st.conn.userId ∧
    (leaveHuddle st a).1.conn.isAuthenticated = st.conn.isAuthenticated ∧
    (leaveHuddle st a).1.conn.subscribedRooms = st.conn.subscribedRooms ∧
    (leaveHuddle st a).1.conn.heartbeatTask = st.conn.heartbeatTask ∧
    (leaveHuddle st a).1.conn.presenceRefreshTask = st.conn.presenceRefreshTask :=
  ⟨rfl, rfl, rfl, rfl, rfl⟩

/-- _leave_huddle does not touch the global online set. -/
theorem leaveHuddle_world_globalOnline (st : S) (a : Nat) :
    (leaveHuddle st a).1.world.globalOnline = st.world.globalOnline := by
  unfold leaveHuddle removeHuddleParticipant
  by_cases hm : (a, st.conn.userId) ∈ st.world.huddleRoster
  · simp only [if_pos hm]
    split <;> simp [removeUserSession, cleanupRoomSfu]
  · simp only [if_neg hm]
    simp [removeUserSession, cleanupRoomSfu]

/-- The huddle step of disconnect preserves the other connection fields and
the global online set, and always ends with no truthy active huddle. -/
theorem huddleStep_facts (s : S × List Effect) :
    (huddleStep s).1.conn.userId = s.1.conn.userId ∧
    (huddleStep s).1.conn.isAuthenticated = s.1.conn.isAuthenticated ∧
    (huddleStep s).1.conn.subscribedRooms = s.1.conn.subscribedRooms ∧
    (huddleStep s).1.conn.heartbeatTask = s.1.conn.heartbeatTask ∧
    (huddleStep s).1.conn.presenceRefreshTask = s.1.conn.presenceRefreshTask ∧
    (huddleStep s).1.world.globalOnline = s.1.world.globalOnline ∧
    activeTruthy (huddleStep s).1.conn = false := by
  unfold huddleStep
  by_cases hA : activeTruthy s.1.conn
  · rw [if_pos hA]
    rcases hA2 : s.1.conn.activeHuddleRoom with _ | a
    · unfold activeTruthy at hA
      rw [hA2] at hA
      simp at hA
    · refine ⟨(leaveHuddle_conn_fields s.1 a).1, (leaveHuddle_conn_fields s.1 a).2.1,
        (leaveHuddle_conn_fields s.1 a).2.2.1, (leaveHuddle_conn_fields s.1 a).2.2.2.1,
        (leaveHuddle_conn_fields s.1 a).2.2.2.2,
        leaveHuddle_world_globalOnline s.1 a, ?_⟩
      unfold activeTruthy
      rw [leaveHuddle_conn_active]
  · rw [if_neg hA]
    exact ⟨rfl, rfl, rfl, rfl, rfl, rfl, by simpa using hA⟩

/-- Projections of the teardown body: rooms all left, huddle cleared, the
flags and identity preserved, and a second presence removal would be a
no-op. -/
theorem disconnectCore_post (s : S) :
    ((disconnectCore s).1).conn.isAuthenticated = s.conn.isAuthenticated ∧
    ((disconnectCore s).1).conn.subscribedRooms = [] ∧
    ((disconnectCore s).1).conn.heartbeatTask = s.conn.heartbeatTask ∧
    ((disconnectCore s).1).conn.presenceRefreshTask = s.conn.presenceRefreshTask ∧
    activeTruthy ((disconnectCore s).1).conn = false ∧
    sremList ((disconnectCore s).1).world.globalOnline ((disconnectCore s).1).conn.userId
      = ((disconnectCore s).1).world.globalOnline := by
  have hF := leaveStep_fold_facts s.conn.subscribedRooms (s, [])
  have hH := huddleStep_facts (s.conn.subscribedRooms.foldl leaveStep (s, []))
  have hsub := leaveStep_fold_subscribed_nil s.conn.subscribedRooms (s, [])
    (fun x hx => hx)
  exact ⟨hH.2.1.trans hF.2.1, hH.2.2.1.trans hsub, hH.2.2.2.1.trans hF.2.2.2.1,
    hH.2.2.2.2.1.trans hF.2.2.2.2.1, hH.2.2.2.2.2.2, sremList_idem _ _⟩

/-- After one disconnect of an authenticated connection, the state is fully
torn down. -/
theorem disconnect_post_facts (st : S) (ha : st.conn.isAuthenticated = true) :
    ((disconnect st).1).conn.isAuthenticated = true ∧
    ((disconnect st).1).conn.subscribedRooms = [] ∧
    ((disconnect st).1).conn.heartbeatTask = false ∧
    ((disconnect st).1).conn.presenceRefreshTask = false ∧
    activeTruthy ((disconnect st).1).conn = false ∧
    sremList ((disconnect st).1).world.globalOnline ((disconnect st).1).conn.userId
      = ((disconnect st).1).world.globalOnline := by
  have he : disconnect st = disconnectCore { st with conn :=
      { st.conn with heartbeatTask := false, presenceRefreshTask := false } } := by
    unfold disconnect
    rw [if_neg (by simp [ha])]
  rw [he]
  have hc := disconnectCore_post { st with conn :=
    { st.conn with heartbeatTask := false, presenceRefreshTask := false } }
  exact ⟨hc.1.trans (by simp [ha]), hc.2.1, hc.2.2.1, hc.2.2.2.1,
    hc.2.2.2.2.1, hc.2.2.2.2.2⟩

/-- Disconnect on a state that is already torn down (no subscriptions, no
truthy huddle, tasks cancelled, presence already removed) leaves the state
unchanged, emits no leave broadcast, and still emits the two group discards
and one offline broadcast. -/
theorem disconnect_clean (s : S)
    (hauth : s.conn.isAuthenticated = true)
    (hsub : s.conn.subscribedRooms = [])
    (hhb : s.conn.heartbeatTask = false)
    (hpr : s.conn.presenceRefreshTask = false)
    (hact : activeTruthy s.conn = false)
    (hgo : sremList s.world.globalOnline s.conn.userId = s.world.globalOnline) :
    disconnect s = (s,
      [Effect.groupDiscard (Group.user s.conn.userId),
       Effect.groupDiscard Group.globalPresence,
       Effect.groupSend Group.globalPresence (GroupMsg.userOffline s.conn.userId)]) := by
  unfold disconnect
  rw [cancel_tasks_id s hhb hpr]
  rw [if_neg (by simp [hauth])]
  unfold disconnectCore huddleStep
  rw [hsub]
  dsimp only [List.foldl_nil]
  rw [if_neg (by simp [hact])]
  dsimp only
  rw [hgo]
  rfl

/-- Claim C9 (amended): a second disconnect of an authenticated connection
reaches the same final state as the first (rooms and huddle left, presence
removed, tasks cancelled) and broadcasts no per-room leave, but it DOES
emit a second broadcast_user_offline to global_presence: the offline
broadcast of disconnect is unconditional once authenticated. -/
theorem disconnect_idempotent_state (st : S) (ha : st.conn.isAuthenticated = true) :
    (disconnect (disconnect st).1).1 = (disconnect st).1 ∧
    (disconnect (disconnect st).1).2.countP isLeaveBroadcast = 0 ∧
    (disconnect (disconnect st).1).2.countP isUserOfflineBroadcast = 1 := by
  obtain ⟨h1, h2, h3, h4, h5, h6⟩ := disconnect_post_facts st ha
  rw [disconnect_clean (disconnect st).1 h1 h2 h3 h4 h5 h6]
  refine ⟨rfl, ?_, ?_⟩ <;>
    simp [List.countP_cons, isLeaveBroadcast, isUserOfflineBroadcast]

/-- Witness for the amended C9 at a concrete authenticated state. -/
theorem disconnect_idempotent_state_witness :
    stC7.conn.isAuthenticated = true ∧
    (disconnect (disconnect stC7).1).1 = (disconnect stC7).1 ∧
    (disconnect (disconnect stC7).1).2.countP isUserOfflineBroadcast = 1 :=
  ⟨rfl, (disconnect_idempotent_state stC7 rfl).1,
   (disconnect_idempotent_state stC7 rfl).2.2⟩

/-- Counterexample to C9 as stated: the claim says a second teardown sends
no second broadcast_user_offline and has no further visible effects, but at
this concrete state the second disconnect emits another
broadcast_user_offline to global_presence (the offline broadcast is
unconditional for an authenticated connection). -/
theorem disconnect_double_offline_cex :
    (disconnect (disconnect stC7).1).2.countP isUserOfflineBroadcast = 1 ∧
    (disconnect (disconnect stC7).1).2 ≠ [] := by
  decide

/-- Counterexample to C7 as stated: the claim says ping does not reset the
idle clock, but receiving a ping at time 77 on a connection whose
last_activity is 0 moves last_activity to 77, because receive updates it
for every decoded frame before the ping branch runs. -/
theorem ping_resets_idle_clock_cex :
    stC7.conn.lastActivity = 0 ∧
    (receive envT 77 stC7 (InFrame.evt pingEvt)).1.conn.lastActivity = 77 := by
  exact ⟨rfl, rfl⟩

end RTChat
